import Mathlib

/-!
Shallow embedding of the process-execution and session-continuity core of
gemini-claude-bridge: the `ClaudeWrapper` and `GeminiWrapper` classes
(src/unnamed/part_001) and the MCP server tool handlers (src/src/index.ts).

Modelling conventions:
* The per-user session directory is modelled as an association list from file
  basename to file content (`FS`).  `fs.writeFileSync` / `fs.unlinkSync` /
  `fs.readdirSync` / `fs.existsSync` / `fs.readFileSync` become the `FS.*`
  operations below.  A JSON file either parses to a typed record or is
  corrupt/unreadable (`FileContent.corrupt`); `JSON.parse` of a corrupt file
  throws, which the embedding renders as `none` at the read site.
* Fallible primitives that the source wraps in `try { .. } catch { .. }` take a
  `FaultEnv` flag saying whether the underlying call throws; the catch block is
  translated at the call site.
* `crypto.createHash(md5)...digest(hex).slice(0, 12)` is modelled by an
  abstract per-wrapper function `md5hex12 : String → String`; the source uses
  no property of MD5 beyond being a function of the lowercased path.
* JavaScript string primitives (`trim`, `startsWith`, `||` on strings, the
  ANSI-escape regex replace, `\r\n` normalization) are defined below on
  character lists, mirroring ECMAScript semantics.
* The asynchronous part of `execute` is a fold of the registered handlers
  (`data`, `close`, `error`, the timeout timer) over a trace of events; the
  JavaScript promise settles at most once, which `settleClaude`/`geminiFinish`
  make explicit.  Wall-clock `duration` is not modelled (no claim mentions it).
-/

namespace Bridge

/-- Whitespace test used by the model of `String.prototype.trim`. -/
def isJsSpace (c : Char) : Bool :=
  c = ' ' || c = '\t' || c = '\n' || c = '\r' || c = '\x0b' || c = '\x0c'

/-- Model of JavaScript `s.trim()`: strip leading and trailing whitespace. -/
def jsTrim (s : String) : String :=
  ⟨((s.data.dropWhile isJsSpace).reverse.dropWhile isJsSpace).reverse⟩

/-- Model of JavaScript `s.startsWith(pre)`. -/
def jsStartsWith (s pre : String) : Bool :=
  pre.data.isPrefixOf s.data

/-- Model of JavaScript `a || b` on strings: `b` exactly when `a` is empty. -/
def jsOr (a b : String) : String :=
  if a = "" then b else a

/-- Rendering of a nullable exit code inside a template literal:
`null` prints as `"null"`, an integer in decimal. -/
def jsCodeStr : Option Int → String
  | none => "null"
  | some n => toString n

/-- Rendering of `timeout/1000` in the Gemini timeout message.  The configured
timeouts are multiples of 1000 ms, for which JavaScript number formatting
agrees with natural division; no claim inspects this fragment. -/
def secondsStr (ms : Nat) : String :=
  toString (ms / 1000)

/-- Length of an ANSI escape parameter block `[0-9;]*m` at the head of the
list (including the final `m`), or `none` if the head does not match. -/
def ansiParamLen : List Char → Option Nat
  | [] => none
  | c :: cs =>
    if c = 'm' then some 1
    else if c.isDigit || c = ';' then (ansiParamLen cs).map (· + 1)
    else none

/-- Worker of the ANSI stripper; the fuel argument (any bound above the input
length) only makes the recursion structural, every step consumes at least one
character. -/
def stripAnsiGo : Nat → List Char → List Char
  | 0, l => l
  | _ + 1, [] => []
  | fuel + 1, '\x1b' :: '[' :: rest =>
    match ansiParamLen rest with
    | some n => stripAnsiGo fuel (rest.drop n)
    | none => '\x1b' :: '[' :: stripAnsiGo fuel rest
  | fuel + 1, c :: cs => c :: stripAnsiGo fuel cs

/-- Model of the ANSI regex replace with the empty string: delete every ANSI color
escape sequence. -/
def stripAnsiChars (l : List Char) : List Char :=
  stripAnsiGo (l.length + 1) l

/-- Model of the CRLF-to-LF regex replace. -/
def crlfToLf : List Char → List Char
  | [] => []
  | '\r' :: '\n' :: rest => '\n' :: crlfToLf rest
  | c :: cs => c :: crlfToLf cs

/-- Claude session record (interface `SessionData`). -/
structure SessionData where
  sessionId : String
  workingDirectory : String
  lastUsed : String
  taskCount : Nat
deriving DecidableEq

/-- Gemini session record (interface `GeminiSessionData`). -/
structure GeminiSessionData where
  workingDirectory : String
  lastUsed : String
  taskCount : Nat
deriving DecidableEq

/-- Content of one file in the session directory: a parsed Claude record, a
parsed Gemini record, or an unreadable/unparseable file (reading it makes
`JSON.parse` or `readFileSync` throw). -/
inductive FileContent
  | claudeRec (d : SessionData)
  | geminiRec (d : GeminiSessionData)
  | corrupt
deriving DecidableEq

/-- The session directory: an association list from file basename to content. -/
abbrev FS := List (String × FileContent)

/-- Model of `fs.readFileSync` on the session directory: content of the first
entry carrying the name. -/
def FS.lookupFile (fs : FS) (name : String) : Option FileContent :=
  match fs with
  | [] => none
  | (k, v) :: rest => if k = name then some v else FS.lookupFile rest name

/-- Model of `fs.existsSync` on the session directory. -/
def FS.existsFile (fs : FS) (name : String) : Bool :=
  (FS.lookupFile fs name).isSome

/-- Model of `fs.writeFileSync`: overwrite-or-create a single file. -/
def FS.setFile (fs : FS) (name : String) (c : FileContent) : FS :=
  (name, c) :: fs.filter (fun p => p.1 != name)

/-- Model of `fs.unlinkSync`. -/
def FS.deleteFile (fs : FS) (name : String) : FS :=
  fs.filter (fun p => p.1 != name)

/-- Model of `fs.readdirSync` on the session directory. -/
def FS.fileNames (fs : FS) : List String :=
  fs.map (fun p => p.1)

/-- Which fallible primitives throw during one call (each throw site in the
source sits inside a `try { .. } catch { .. }` that this model translates). -/
structure FaultEnv where
  writeFails : Bool
  appendLogFails : Bool
  unlinkFails : Bool
  readdirFails : Bool
deriving DecidableEq

/-- The `ClaudeWrapper` class.  Its only instance-level ingredient relevant to
the model is the directory-hash function. -/
structure ClaudeWrapper where
  md5hex12 : String → String

/-- `getDirectoryHash`: md5 of the lowercased directory, truncated to 12 hex
characters. -/
def ClaudeWrapper.getDirectoryHash (w : ClaudeWrapper) (dir : String) : String :=
  w.md5hex12 dir.toLower

/-- Basename of the Claude session file for a working directory. -/
def ClaudeWrapper.sessionFileName (w : ClaudeWrapper) (dir : String) : String :=
  "session-" ++ w.getDirectoryHash dir ++ ".json"

/-- `loadSession`: read and parse the per-directory record; any failure
(missing file, unreadable file, parse error) is caught and yields `null`. -/
def ClaudeWrapper.loadSession (w : ClaudeWrapper) (fs : FS) (workingDirectory : String) :
    Option SessionData :=
  match FS.lookupFile fs (w.sessionFileName workingDirectory) with
  | some (.claudeRec d) => some d
  | _ => none

/-- `saveSession`: overwrite the per-directory record; a throwing write is
caught and leaves the store unchanged. -/
def ClaudeWrapper.saveSession (w : ClaudeWrapper) (env : FaultEnv) (now : String) (fs : FS)
    (workingDirectory sessionId : String) (taskCount : Nat) : FS :=
  if env.writeFails then fs
  else FS.setFile fs (w.sessionFileName workingDirectory)
    (.claudeRec { sessionId := sessionId, workingDirectory := workingDirectory,
                  lastUsed := now, taskCount := taskCount })

/-- `clearSession`: delete the record if present, reporting whether a record
existed and was removed; a throwing unlink is caught and falls through to
`return false`. -/
def ClaudeWrapper.clearSession (w : ClaudeWrapper) (env : FaultEnv) (fs : FS)
    (workingDirectory : String) : Bool × FS :=
  let file := w.sessionFileName workingDirectory
  if FS.existsFile fs file then
    if env.unlinkFails then (false, fs)
    else (true, FS.deleteFile fs file)
  else (false, fs)

/-- Parse one directory entry as a Claude session record; `none` models the
`JSON.parse`/read throwing for that entry. -/
def parseClaudeSession (fs : FS) (f : String) : Option SessionData :=
  match FS.lookupFile fs f with
  | some (.claudeRec d) => some d
  | _ => none

/-- The `files.map(f => JSON.parse(readFileSync(..)))` loop: a throw at any
entry aborts the whole surrounding `try` block. -/
def traverseParse {α : Type} (g : String → Option α) : List String → Option (List α)
  | [] => some []
  | f :: fs =>
    match g f with
    | none => none
    | some d => (traverseParse g fs).map (d :: ·)

/-- `listSessions`: enumerate the directory, keep entries named `session-*`,
parse each; any throw inside (readdir or one parse) is caught at the level of
the whole listing, which then returns `[]`. -/
def ClaudeWrapper.listSessions (w : ClaudeWrapper) (env : FaultEnv) (fs : FS) :
    List SessionData :=
  if env.readdirFails then []
  else
    let files := (FS.fileNames fs).filter (fun f => jsStartsWith f "session-")
    match traverseParse (parseClaudeSession fs) files with
    | some l => l
    | none => []

/-- The `GeminiWrapper` class. -/
structure GeminiWrapper where
  md5hex12 : String → String

/-- `getDirectoryHash` of the Gemini wrapper (same construction). -/
def GeminiWrapper.getDirectoryHash (g : GeminiWrapper) (dir : String) : String :=
  g.md5hex12 dir.toLower

/-- Basename of the Gemini session file for a working directory. -/
def GeminiWrapper.sessionFileName (g : GeminiWrapper) (dir : String) : String :=
  "gemini-session-" ++ g.getDirectoryHash dir ++ ".json"

/-- Gemini `loadSession`. -/
def GeminiWrapper.loadSession (g : GeminiWrapper) (fs : FS) (workingDirectory : String) :
    Option GeminiSessionData :=
  match FS.lookupFile fs (g.sessionFileName workingDirectory) with
  | some (.geminiRec d) => some d
  | _ => none

/-- Gemini `saveSession`. -/
def GeminiWrapper.saveSession (g : GeminiWrapper) (env : FaultEnv) (now : String) (fs : FS)
    (workingDirectory : String) (taskCount : Nat) : FS :=
  if env.writeFails then fs
  else FS.setFile fs (g.sessionFileName workingDirectory)
    (.geminiRec { workingDirectory := workingDirectory, lastUsed := now,
                  taskCount := taskCount })

/-- Gemini `clearSession`. -/
def GeminiWrapper.clearSession (g : GeminiWrapper) (env : FaultEnv) (fs : FS)
    (workingDirectory : String) : Bool × FS :=
  let file := g.sessionFileName workingDirectory
  if FS.existsFile fs file then
    if env.unlinkFails then (false, fs)
    else (true, FS.deleteFile fs file)
  else (false, fs)

/-- Parse one directory entry as a Gemini session record. -/
def parseGeminiSession (fs : FS) (f : String) : Option GeminiSessionData :=
  match FS.lookupFile fs f with
  | some (.geminiRec d) => some d
  | _ => none

/-- Gemini `listSessions` (entries named `gemini-session-*`). -/
def GeminiWrapper.listSessions (g : GeminiWrapper) (env : FaultEnv) (fs : FS) :
    List GeminiSessionData :=
  if env.readdirFails then []
  else
    let files := (FS.fileNames fs).filter (fun f => jsStartsWith f "gemini-session-")
    match traverseParse (parseGeminiSession fs) files with
    | some l => l
    | none => []

/-- Interface `ClaudeExecutionResult`.  Wall-clock `duration` is omitted. -/
structure ClaudeExecutionResult where
  success : Bool
  output : String
  exitCode : Option Int
  sessionId : Option String
deriving DecidableEq

/-- Interface `GeminiExecutionResult` (no session identifier), `duration`
omitted as above. -/
structure GeminiExecutionResult where
  success : Bool
  output : String
  exitCode : Option Int
deriving DecidableEq

/-- Interface `ClaudeWrapperOptions`.  `additionalEnv` only feeds the spawned
child environment and is omitted. -/
structure ClaudeWrapperOptions where
  workingDirectory : Option String := none
  timeout : Option Nat := none
  sessionId : Option String := none
  continueSession : Option Bool := none

/-- Interface `GeminiWrapperOptions` (`model` is accepted and unused by the
source `execute`). -/
structure GeminiWrapperOptions where
  workingDirectory : Option String := none
  timeout : Option Nat := none
  continueSession : Option Bool := none

/-- One asynchronous occurrence after the child process is spawned: a chunk on
one of the two streams, the firing of the armed timeout timer, the `close`
event with the child exit code (`none` when killed by a signal), or the
process-level `error` event. -/
inductive ProcEvent
  | stdoutData (chunk : String)
  | stderrData (chunk : String)
  | timeoutFire
  | closeEv (code : Option Int)
  | errorEv (msg : String)
deriving DecidableEq

/-- Events whose Claude handler calls `resolve` (the timeout handler of the
Claude wrapper only kills the child and does not resolve). -/
def claudeSettling : ProcEvent → Bool
  | .closeEv _ => true
  | .errorEv _ => true
  | _ => false

/-- Events whose Gemini handler calls `finish`. -/
def geminiSettling : ProcEvent → Bool
  | .closeEv _ => true
  | .errorEv _ => true
  | .timeoutFire => true
  | _ => false

/-- Session resolved for one Claude `execute` call: identifier, task counter,
and the prior record used by the argument construction. -/
structure ClaudeSession where
  sessionId : String
  taskCount : Nat
  existing : Option SessionData
deriving DecidableEq

/-- Session-resolution block of `ClaudeWrapper.execute`:
explicit id wins (counter 1); else continue a prior record (counter + 1);
else a freshly generated identifier (counter 1).  `generatedId` stands for
`crypto.randomUUID()`. -/
def ClaudeWrapper.resolveSession (w : ClaudeWrapper) (fs : FS) (opts : ClaudeWrapperOptions)
    (generatedId cwd : String) : ClaudeSession :=
  let existingSession := w.loadSession fs cwd
  let continueSession := opts.continueSession.getD true
  match opts.sessionId with
  | some sid => { sessionId := sid, taskCount := 1, existing := existingSession }
  | none =>
    match existingSession with
    | some es =>
      if continueSession then
        { sessionId := es.sessionId, taskCount := es.taskCount + 1, existing := existingSession }
      else
        { sessionId := generatedId, taskCount := 1, existing := existingSession }
    | none => { sessionId := generatedId, taskCount := 1, existing := existingSession }

/-- Claude CLI argument construction: a continued session is passed as
`--resume`, a brand-new one as `--session-id`, never both. -/
def ClaudeWrapper.cliArgs (w : ClaudeWrapper) (instruction : String) (sess : ClaudeSession)
    (continueSession : Bool) : List String :=
  let args := ["-p", instruction, "--dangerously-skip-permissions"]
  if sess.existing.isSome && continueSession then
    args ++ ["--resume", sess.sessionId]
  else
    args ++ ["--session-id", sess.sessionId]

/-- Audit line appended (best effort) to the orchestrator log by the Claude
wrapper before spawning. -/
def claudeLogLine (now : String) (sess : ClaudeSession) (instruction : String) : String :=
  "[" ++ now ++ "] " ++
  (if sess.existing.isSome then "[CONTINUE #" ++ toString sess.taskCount ++ "]"
   else "[NEW SESSION]") ++
  " GEMINI -> CLAUDE: " ++ instruction ++ "\nSession: " ++ sess.sessionId ++ "\n\n"

/-- `fs.appendFileSync` on the audit log, with its enclosing catch: a failed
append leaves the log unchanged and is not propagated. -/
def appendLog (env : FaultEnv) (log : List String) (line : String) : List String :=
  if env.appendLogFails then log else log ++ [line]

/-- Close-handler outcome of the Claude wrapper: exit code 0 or non-empty
trimmed stdout is success; on success the output is the trimmed stdout or a
placeholder; on failure stderr, stdout and a literal exit-code message are
tried in that order. -/
def claudeCloseOutcome (stdout stderr : String) (code : Option Int) (sessionId : String) :
    ClaudeExecutionResult :=
  let hasOutput : Bool := jsTrim stdout != ""
  let isSuccess : Bool := code == some 0 || hasOutput
  if isSuccess then
    { success := true
      output := jsOr (jsTrim stdout) "[Claude lieferte keine Ausgabe]"
      exitCode := code
      sessionId := some sessionId }
  else
    { success := false
      output := "[CLAUDE CLI ERROR]\n" ++
        jsOr (jsTrim stderr) (jsOr (jsTrim stdout) ("Exit-Code: " ++ jsCodeStr code))
      exitCode := code
      sessionId := some sessionId }

/-- Mutable closure state of one Claude `execute` promise: the two stream
buffers, whether the timeout timer is still pending, the promise settlement,
how many `resolve` calls actually settled it, and the session store. -/
structure ClaudeRun where
  stdout : String
  stderr : String
  timerArmed : Bool
  settled : Option ClaudeExecutionResult
  resolveCount : Nat
  fs : FS

/-- JavaScript promise settlement: the first `resolve` fixes the value, every
later call is a no-op. -/
def settleClaude (s : ClaudeRun) (r : ClaudeExecutionResult) : ClaudeRun :=
  match s.settled with
  | some _ => s
  | none => { s with settled := some r, resolveCount := s.resolveCount + 1 }

/-- Outcome produced by the Claude process-error handler. -/
def claudeErrorOutcome (sid msg : String) : ClaudeExecutionResult :=
  { success := false, output := "[PROCESS ERROR] " ++ msg,
    exitCode := none, sessionId := some sid }

/-- One event handled by the Claude wrapper handlers.  The timeout handler
sends SIGTERM (and SIGKILL after the grace window) but does not resolve; the
close handler clears the timer, applies the success policy, saves the session
on success and resolves; the error handler clears the timer and resolves. -/
def claudeStep (w : ClaudeWrapper) (env : FaultEnv) (now cwd sessionId : String)
    (taskCount : Nat) (s : ClaudeRun) : ProcEvent → ClaudeRun
  | .stdoutData c => { s with stdout := s.stdout ++ c }
  | .stderrData c => { s with stderr := s.stderr ++ c }
  | .timeoutFire => if s.timerArmed then { s with timerArmed := false } else s
  | .closeEv code =>
    let s1 := { s with timerArmed := false }
    let r := claudeCloseOutcome s1.stdout s1.stderr code sessionId
    let s2 :=
      if r.success then
        { s1 with fs := w.saveSession env now s1.fs cwd sessionId taskCount }
      else s1
    settleClaude s2 r
  | .errorEv msg =>
    let s1 := { s with timerArmed := false }
    settleClaude s1
      { success := false, output := "[PROCESS ERROR] " ++ msg,
        exitCode := none, sessionId := some sessionId }

/-- Initial closure state of one run. -/
def claudeRunInit (fs : FS) : ClaudeRun :=
  { stdout := "", stderr := "", timerArmed := true, settled := none,
    resolveCount := 0, fs := fs }

/-- Fold of the Claude handlers over an event trace. -/
def claudeRun (w : ClaudeWrapper) (env : FaultEnv) (now cwd sessionId : String)
    (taskCount : Nat) (fs : FS) (events : List ProcEvent) : ClaudeRun :=
  events.foldl (claudeStep w env now cwd sessionId taskCount) (claudeRunInit fs)

/-- Per-call environment of one Claude `execute` invocation: the fault flags,
the wall clock reading, the generated UUID, whether `spawn` threw
synchronously (the source guards this with its own try/catch), the event
trace of the child, and `process.cwd()`. -/
structure ClaudeExecEnv where
  fault : FaultEnv
  now : String
  generatedId : String
  spawnThrows : Option String
  events : List ProcEvent
  defaultCwd : String

/-- Observable result of one Claude `execute` call: the settled outcome
(`none` when the promise is still pending), the session store, and the audit
log. -/
structure ClaudeExecState where
  result : Option ClaudeExecutionResult
  fs : FS
  log : List String

/-- Remediation hint of the Claude spawn-error outcome. -/
def claudeSpawnHint : String :=
  "\n\nPrüfe:\n1. Ist Claude CLI installiert? → npm install -g @anthropic-ai/claude-code\n2. Bist du eingeloggt? → claude login"

/-- The `ClaudeWrapper.execute` method: resolve the session, append the audit
line, spawn (resolving immediately on a synchronous spawn throw, without a
session identifier in the outcome), then let the handlers consume the event
trace. -/
def ClaudeWrapper.execute (w : ClaudeWrapper) (env : ClaudeExecEnv) (fs : FS)
    (log : List String) (instruction : String) (opts : ClaudeWrapperOptions) :
    ClaudeExecState :=
  let cwd := opts.workingDirectory.getD env.defaultCwd
  let sess := w.resolveSession fs opts env.generatedId cwd
  let log1 := appendLog env.fault log (claudeLogLine env.now sess instruction)
  match env.spawnThrows with
  | some msg =>
    { result := some
        { success := false
          output := "[SPAWN ERROR] Claude CLI konnte nicht gestartet werden: " ++ msg ++
            claudeSpawnHint
          exitCode := none
          sessionId := none }
      fs := fs, log := log1 }
  | none =>
    let final := claudeRun w env.fault env.now cwd sess.sessionId sess.taskCount fs env.events
    { result := final.settled, fs := final.fs, log := log1 }

/-- Gemini output cleanup: strip ANSI color escapes, normalize CRLF, trim. -/
def geminiClean (raw : String) : String :=
  jsTrim ⟨crlfToLf (stripAnsiChars raw.data)⟩

/-- Timeout message of the Gemini wrapper, carrying the partially buffered
output (stdout, else stderr, else a literal marker). -/
def geminiTimeoutMsg (timeout : Nat) (stdout stderr : String) : String :=
  "[TIMEOUT] Gemini antwortete nicht innerhalb von " ++ secondsStr timeout ++
  "s\n\nPartielle Ausgabe:\n" ++ jsOr stdout (jsOr stderr "(keine)")

/-- Close-handler outcome of the Gemini wrapper: success needs exit code 0
and non-empty cleaned output; otherwise the cleaned output or a literal
exit-code message, as failure. -/
def geminiCloseOutcome (stdout stderr : String) (code : Option Int) :
    GeminiExecutionResult :=
  let clean := geminiClean (jsOr stdout stderr)
  if code == some 0 && clean != "" then
    { success := true, output := clean, exitCode := code }
  else
    { success := false, output := jsOr clean ("[ERROR] Exit code: " ++ jsCodeStr code),
      exitCode := code }

/-- Mutable closure state of one Gemini `execute` promise; `resolvedFlag` is
the explicit `resolved` guard of the source. -/
structure GeminiRun where
  stdout : String
  stderr : String
  timerArmed : Bool
  resolvedFlag : Bool
  settled : Option GeminiExecutionResult
  resolveCount : Nat
  fs : FS

/-- The `finish` helper: a second call is a no-op; the first call saves the
session on success and resolves the promise. -/
def geminiFinish (g : GeminiWrapper) (env : FaultEnv) (now cwd : String) (taskCount : Nat)
    (s : GeminiRun) (success : Bool) (output : String) (exitCode : Option Int) : GeminiRun :=
  if s.resolvedFlag then s
  else
    let fs1 := if success then g.saveSession env now s.fs cwd taskCount else s.fs
    let r : GeminiExecutionResult :=
      { success := success, output := output, exitCode := exitCode }
    { s with resolvedFlag := true, fs := fs1, settled := some r,
             resolveCount := s.resolveCount + 1 }

/-- One event handled by the Gemini wrapper handlers.  Unlike the Claude
wrapper, the timeout handler itself finishes (with the partial output), in
addition to sending the escalating kill signals. -/
def geminiStep (g : GeminiWrapper) (env : FaultEnv) (now cwd : String) (taskCount : Nat)
    (timeout : Nat) (s : GeminiRun) : ProcEvent → GeminiRun
  | .stdoutData c => { s with stdout := s.stdout ++ c }
  | .stderrData c => { s with stderr := s.stderr ++ c }
  | .timeoutFire =>
    if s.timerArmed then
      let s1 := { s with timerArmed := false }
      geminiFinish g env now cwd taskCount s1 false
        (geminiTimeoutMsg timeout s1.stdout s1.stderr) none
    else s
  | .closeEv code =>
    let s1 := { s with timerArmed := false }
    let r := geminiCloseOutcome s1.stdout s1.stderr code
    geminiFinish g env now cwd taskCount s1 r.success r.output r.exitCode
  | .errorEv msg =>
    let s1 := { s with timerArmed := false }
    geminiFinish g env now cwd taskCount s1 false ("[SPAWN ERROR] " ++ msg) none

/-- Initial closure state of one Gemini run. -/
def geminiRunInit (fs : FS) : GeminiRun :=
  { stdout := "", stderr := "", timerArmed := true, resolvedFlag := false,
    settled := none, resolveCount := 0, fs := fs }

/-- Fold of the Gemini handlers over an event trace. -/
def geminiRun (g : GeminiWrapper) (env : FaultEnv) (now cwd : String) (taskCount : Nat)
    (timeout : Nat) (fs : FS) (events : List ProcEvent) : GeminiRun :=
  events.foldl (geminiStep g env now cwd taskCount timeout) (geminiRunInit fs)

/-- Per-call environment of one Gemini `execute` invocation.  Node `spawn`
reports launch failure through the `error` event (the Gemini wrapper has no
synchronous spawn guard), so spawn failure appears as `ProcEvent.errorEv`. -/
structure GeminiExecEnv where
  fault : FaultEnv
  now : String
  events : List ProcEvent
  defaultCwd : String

/-- Observable result of one Gemini `execute` call. -/
structure GeminiExecState where
  result : Option GeminiExecutionResult
  fs : FS
  log : List String

/-- Gemini CLI argument construction: `--resume latest` is appended exactly
when a prior record exists and continuation is not disabled. -/
def GeminiWrapper.cliArgs (g : GeminiWrapper) (instruction : String)
    (existing : Option GeminiSessionData) (opts : GeminiWrapperOptions) : List String :=
  let args := [instruction, "--yolo", "-o", "text"]
  if existing.isSome && opts.continueSession != some false then
    args ++ ["--resume", "latest"]
  else args

/-- Audit line of the Gemini wrapper. -/
def geminiLogLine (now : String) (existing : Option GeminiSessionData) (taskCount : Nat)
    (instruction : String) : String :=
  "[" ++ now ++ "] " ++
  (if existing.isSome then "[CONTINUE #" ++ toString taskCount ++ "]"
   else "[NEW SESSION]") ++
  " CLAUDE -> GEMINI (CLI): " ++ instruction ++ "\n\n"

/-- Default Gemini timeout (120 s). -/
def GeminiWrapper.defaultTimeout : Nat := 120000

/-- Default Claude timeout (10 min). -/
def ClaudeWrapper.defaultTimeout : Nat := 600000

/-- The `GeminiWrapper.execute` method. -/
def GeminiWrapper.execute (g : GeminiWrapper) (env : GeminiExecEnv) (fs : FS)
    (log : List String) (instruction : String) (opts : GeminiWrapperOptions) :
    GeminiExecState :=
  let cwd := opts.workingDirectory.getD env.defaultCwd
  let existingSession := g.loadSession fs cwd
  let taskCount := match existingSession with | some es => es.taskCount + 1 | none => 1
  let log1 := appendLog env.fault log (geminiLogLine env.now existingSession taskCount instruction)
  let timeout := opts.timeout.getD GeminiWrapper.defaultTimeout
  let final := geminiRun g env.fault env.now cwd taskCount timeout fs env.events
  { result := final.settled, fs := final.fs, log := log1 }

/-- Handler of the clear_session server tool: it calls `clearSession` of the
Claude wrapper only. -/
def serverClearSession (cw : ClaudeWrapper) (env : FaultEnv) (fs : FS)
    (workingDirectory : String) : Bool × FS :=
  cw.clearSession env fs workingDirectory

/-- Handler of the list_sessions server tool: it calls `listSessions` of the
Claude wrapper only. -/
def serverListSessions (cw : ClaudeWrapper) (env : FaultEnv) (fs : FS) : List SessionData :=
  cw.listSessions env fs

/-! Concrete fixtures used by counterexamples and witnesses. -/

/-- Fault-free environment: no filesystem primitive throws. -/
def noFault : FaultEnv := ⟨false, false, false, false⟩

/-- Claude wrapper with a fixed directory-hash function. -/
def sampleWrapper : ClaudeWrapper := ⟨fun _ => "aaaaaaaaaaaa"⟩

/-- Gemini wrapper with a fixed directory-hash function. -/
def sampleGemini : GeminiWrapper := ⟨fun _ => "bbbbbbbbbbbb"⟩

/-- Claude call environment whose child buffers output and then times out;
the kill makes the process close with a signal (exit code `null`). -/
def timeoutTraceEnv : ClaudeExecEnv :=
  { fault := noFault, now := "T0", generatedId := "gen-1", spawnThrows := none,
    events := [.stdoutData "partial", .timeoutFire, .closeEv none], defaultCwd := "/proj" }

/-- Store holding a prior Claude record for `/proj` under `sampleWrapper`. -/
def priorStore : FS :=
  [("session-aaaaaaaaaaaa.json",
    .claudeRec { sessionId := "old-sid", workingDirectory := "/proj",
                 lastUsed := "T", taskCount := 5 })]

/-- A well-formed session record used by the listing counterexample. -/
def goodRecord : SessionData :=
  { sessionId := "sid-a", workingDirectory := "/a", lastUsed := "T", taskCount := 3 }

/-- Store with one readable, well-formed record and one corrupt sibling. -/
def mixedStore : FS :=
  [("session-aaa.json", .claudeRec goodRecord), ("session-bbb.json", .corrupt)]

/-! Invariants and observable cores of the run state machines. -/

/-- Counting invariant: the number of effective settlements is 1 when settled,
0 otherwise. -/
def claudeCountOk (s : ClaudeRun) : Prop :=
  s.resolveCount = if s.settled.isSome then 1 else 0

/-- Record invariant of a Claude run: once the promise is settled, the outcome
carries the resolved session identifier, and a successful outcome guarantees
(absent write faults) that the per-directory record holding exactly the
resolved identifier and counter is on disk. -/
def claudeGood (w : ClaudeWrapper) (f : FaultEnv) (now cwd sid : String) (tc : Nat)
    (s : ClaudeRun) : Prop :=
  ∀ r, s.settled = some r →
    r.sessionId = some sid ∧
    (r.success = true → f.writeFails = false →
      FS.lookupFile s.fs (w.sessionFileName cwd) =
        some (.claudeRec { sessionId := sid, workingDirectory := cwd,
                           lastUsed := now, taskCount := tc }))

/-- Fault-independent observable core of a Claude run state (everything but
the session store). -/
def claudeCore (s : ClaudeRun) : String × String × Bool × Option ClaudeExecutionResult × Nat :=
  (s.stdout, s.stderr, s.timerArmed, s.settled, s.resolveCount)

/-- Pure transition on the observable core, mirroring `claudeStep`. -/
def claudeCoreStep (sid : String)
    (t : String × String × Bool × Option ClaudeExecutionResult × Nat) (e : ProcEvent) :
    String × String × Bool × Option ClaudeExecutionResult × Nat :=
  match t, e with
  | (out, err, armed, set, cnt), .stdoutData c => (out ++ c, err, armed, set, cnt)
  | (out, err, armed, set, cnt), .stderrData c => (out, err ++ c, armed, set, cnt)
  | (out, err, armed, set, cnt), .timeoutFire =>
    if armed then (out, err, false, set, cnt) else (out, err, armed, set, cnt)
  | (out, err, _, set, cnt), .closeEv code =>
    match set with
    | none => (out, err, false, some (claudeCloseOutcome out err code sid), cnt + 1)
    | some r0 => (out, err, false, some r0, cnt)
  | (out, err, _, set, cnt), .errorEv msg =>
    match set with
    | none => (out, err, false, some (claudeErrorOutcome sid msg), cnt + 1)
    | some r0 => (out, err, false, some r0, cnt)

/-- Structural invariant of a Gemini run: the resolved flag mirrors promise
settlement, and a disarmed timer means the run already resolved (every
handler that disarms the timer also finishes). -/
def geminiInv (s : GeminiRun) : Prop :=
  s.resolvedFlag = s.settled.isSome ∧ (s.timerArmed = false → s.resolvedFlag = true)

/-- Counting invariant of the Gemini run. -/
def geminiCountOk (s : GeminiRun) : Prop :=
  s.resolveCount = if s.settled.isSome then 1 else 0

/-- Fault-independent observable core of a Gemini run state. -/
def geminiCore (s : GeminiRun) :
    String × String × Bool × Bool × Option GeminiExecutionResult × Nat :=
  (s.stdout, s.stderr, s.timerArmed, s.resolvedFlag, s.settled, s.resolveCount)

/-- Pure transition on the Gemini observable core, mirroring `geminiStep`. -/
def geminiCoreStep (timeout : Nat)
    (t : String × String × Bool × Bool × Option GeminiExecutionResult × Nat)
    (e : ProcEvent) :
    String × String × Bool × Bool × Option GeminiExecutionResult × Nat :=
  match t, e with
  | (out, err, armed, flag, set, cnt), .stdoutData c => (out ++ c, err, armed, flag, set, cnt)
  | (out, err, armed, flag, set, cnt), .stderrData c => (out, err ++ c, armed, flag, set, cnt)
  | (out, err, armed, flag, set, cnt), .timeoutFire =>
    if armed then
      if flag then (out, err, false, flag, set, cnt)
      else (out, err, false, true,
        some { success := false, output := geminiTimeoutMsg timeout out err,
               exitCode := none }, cnt + 1)
    else (out, err, armed, flag, set, cnt)
  | (out, err, _, flag, set, cnt), .closeEv code =>
    if flag then (out, err, false, flag, set, cnt)
    else (out, err, false, true, some (geminiCloseOutcome out err code), cnt + 1)
  | (out, err, _, flag, set, cnt), .errorEv msg =>
    if flag then (out, err, false, flag, set, cnt)
    else (out, err, false, true,
      some { success := false, output := "[SPAWN ERROR] " ++ msg, exitCode := none },
      cnt + 1)

/-! Helper lemmas about the file-store model. -/

/-- Unfolding lemma for lookups on a non-empty store. -/
theorem FS.lookupFile_cons (k : String) (v : FileContent) (fs : FS) (m : String) :
    FS.lookupFile ((k, v) :: fs) m = if k = m then some v else FS.lookupFile fs m := rfl

/-- Removing all entries of one name does not change lookups of other names. -/
theorem FS.lookupFile_filter_ne (fs : FS) (n m : String) (h : m ≠ n) :
    FS.lookupFile (fs.filter (fun p => p.1 != n)) m = FS.lookupFile fs m := by
  induction fs with
  | nil => rfl
  | cons p fs ih =>
    obtain ⟨p1, p2⟩ := p
    rcases eq_or_ne p1 n with hp | hp
    · subst hp
      rw [List.filter_cons_of_neg (by simp), ih, FS.lookupFile_cons,
        if_neg (fun hh => h hh.symm)]
    · rw [List.filter_cons_of_pos (by simpa using hp), FS.lookupFile_cons,
        FS.lookupFile_cons, ih]

/-- Writing a file makes it readable with the written content. -/
theorem FS.lookupFile_setFile_self (fs : FS) (n : String) (c : FileContent) :
    FS.lookupFile (FS.setFile fs n c) n = some c := by
  simp [FS.lookupFile, FS.setFile]

/-- Writing one file leaves every other file unchanged. -/
theorem FS.lookupFile_setFile_ne (fs : FS) (n m : String) (c : FileContent) (h : m ≠ n) :
    FS.lookupFile (FS.setFile fs n c) m = FS.lookupFile fs m := by
  rw [FS.setFile, FS.lookupFile_cons, if_neg (fun hh => h hh.symm)]
  exact FS.lookupFile_filter_ne fs n m h

/-- Deleting one file leaves every other file unchanged. -/
theorem FS.lookupFile_deleteFile_ne (fs : FS) (n m : String) (h : m ≠ n) :
    FS.lookupFile (FS.deleteFile fs n) m = FS.lookupFile fs m :=
  FS.lookupFile_filter_ne fs n m h

/-- Deleting a file removes it. -/
theorem FS.lookupFile_deleteFile_self (fs : FS) (n : String) :
    FS.lookupFile (FS.deleteFile fs n) n = none := by
  induction fs with
  | nil => rfl
  | cons p fs ih =>
    obtain ⟨p1, p2⟩ := p
    rcases eq_or_ne p1 n with hp | hp
    · subst hp
      rw [FS.deleteFile, List.filter_cons_of_neg (by simp)]
      exact ih
    · rw [FS.deleteFile, List.filter_cons_of_pos (by simpa using hp), FS.lookupFile_cons,
        if_neg hp]
      exact ih

/-- Names of the store after a write: the written name in front, other names
unchanged. -/
theorem FS.fileNames_setFile (fs : FS) (n : String) (c : FileContent) :
    FS.fileNames (FS.setFile fs n c) = n :: FS.fileNames (fs.filter (fun p => p.1 != n)) := rfl

/-- Filtering names by a predicate that rejects `n` ignores the removal of all
entries named `n`. -/
theorem FS.filter_fileNames_erase (fs : FS) (n : String) (p : String → Bool)
    (hp : p n = false) :
    (FS.fileNames (fs.filter (fun q => q.1 != n))).filter p = (FS.fileNames fs).filter p := by
  induction fs with
  | nil => rfl
  | cons q fs ih =>
    obtain ⟨q1, q2⟩ := q
    rcases eq_or_ne q1 n with hq | hq
    · subst hq
      rw [List.filter_cons_of_neg (by simp)]
      rw [ih]
      show List.filter p (FS.fileNames fs) = List.filter p (FS.fileNames ((q1, q2) :: fs))
      rw [show FS.fileNames ((q1, q2) :: fs) = q1 :: FS.fileNames fs from rfl,
        List.filter_cons_of_neg (by simp [hp])]
    · rw [List.filter_cons_of_pos (by simpa using hq)]
      show (q1 :: FS.fileNames (fs.filter (fun q => q.1 != n))).filter p =
        (q1 :: FS.fileNames fs).filter p
      cases hpq : p q1 with
      | false => rw [List.filter_cons_of_neg (by simp [hpq]),
          List.filter_cons_of_neg (by simp [hpq]), ih]
      | true => rw [List.filter_cons_of_pos (by simp [hpq]),
          List.filter_cons_of_pos (by simp [hpq]), ih]

/-! Helper lemmas about the parse loop. -/

/-- Parsing a list of files pointwise-equally gives equal results. -/
theorem traverseParse_congr {α : Type} (g1 g2 : String → Option α) (l : List String)
    (h : ∀ f ∈ l, g1 f = g2 f) : traverseParse g1 l = traverseParse g2 l := by
  induction l with
  | nil => rfl
  | cons f l ih =>
    simp only [traverseParse, h f (List.mem_cons_self f l)]
    rw [ih (fun x hx => h x (List.mem_cons_of_mem f hx))]

/-- When the whole loop succeeds, every file parsed and its record is in the
output. -/
theorem traverseParse_mem {α : Type} (g : String → Option α) (l : List String)
    (out : List α) (h : traverseParse g l = some out) :
    ∀ f ∈ l, ∃ d, g f = some d ∧ d ∈ out := by
  induction l generalizing out with
  | nil => simp
  | cons f0 l ih =>
    intro f hf
    simp only [traverseParse] at h
    cases hg : g f0 with
    | none => simp [hg] at h
    | some d0 =>
      simp only [hg] at h
      cases ht : traverseParse g l with
      | none => simp [ht] at h
      | some rest =>
        have hout : out = d0 :: rest := by
          rw [ht] at h
          simpa using h.symm
        subst hout
        rcases List.mem_cons.mp hf with rfl | hfl
        · exact ⟨d0, hg, List.mem_cons_self d0 rest⟩
        · rcases ih rest ht f hfl with ⟨d, hd, hdm⟩
          exact ⟨d, hd, List.mem_cons_of_mem d0 hdm⟩

/-- One throwing parse aborts the whole loop. -/
theorem traverseParse_none {α : Type} (g : String → Option α) (l : List String)
    (f : String) (hf : f ∈ l) (hg : g f = none) : traverseParse g l = none := by
  induction l with
  | nil => simp at hf
  | cons f0 l ih =>
    rcases List.mem_cons.mp hf with rfl | hfl
    · simp [traverseParse, hg]
    · simp only [traverseParse]
      cases hg0 : g f0 with
      | none => rfl
      | some d0 => simp [ih hfl]

/-- When every parse succeeds, the loop succeeds. -/
theorem traverseParse_some {α : Type} (g : String → Option α) (l : List String)
    (h : ∀ f ∈ l, (g f).isSome) : ∃ out, traverseParse g l = some out := by
  induction l with
  | nil => exact ⟨[], rfl⟩
  | cons f0 l ih =>
    rcases Option.isSome_iff_exists.mp (h f0 (by simp)) with ⟨d0, hd0⟩
    rcases ih (fun x hx => h x (by simp [hx])) with ⟨rest, hrest⟩
    exact ⟨d0 :: rest, by simp [traverseParse, hd0, hrest]⟩

/-! Helper lemmas about session file names. -/

/-- Gemini session files never pass the Claude `session-` listing filter. -/
theorem jsStartsWith_gemini_name (t : String) :
    jsStartsWith ("gemini-session-" ++ t) "session-" = false := by
  simp [jsStartsWith, String.data_append, List.isPrefixOf]

/-- Claude and Gemini session files never share a name. -/
theorem claude_name_ne_gemini_name (a b : String) :
    ("session-" ++ a ++ ".json") ≠ ("gemini-session-" ++ b ++ ".json") := by
  intro h
  have h2 := congrArg String.data h
  simp [String.data_append] at h2

/-! Helper lemmas about the Claude run state machine. -/

/-- One settlement keeps an already settled promise unchanged. -/
theorem settleClaude_settled_of_some (s : ClaudeRun) (r0 r : ClaudeExecutionResult)
    (h : s.settled = some r0) : (settleClaude s r).settled = some r0 := by
  simp [settleClaude, h]

/-- Settling an unsettled promise settles it with the given value. -/
theorem settleClaude_of_none (s : ClaudeRun) (r : ClaudeExecutionResult)
    (h : s.settled = none) :
    settleClaude s r = { s with settled := some r, resolveCount := s.resolveCount + 1 } := by
  simp [settleClaude, h]

/-- Settlement always leaves the promise settled. -/
theorem settleClaude_isSome (s : ClaudeRun) (r : ClaudeExecutionResult) :
    ((settleClaude s r).settled).isSome = true := by
  unfold settleClaude
  cases h : s.settled <;> simp [h]

/-- No handler changes the value of an already settled promise. -/
theorem claudeStep_settled_of_some (w : ClaudeWrapper) (f : FaultEnv) (now cwd sid : String)
    (tc : Nat) (s : ClaudeRun) (e : ProcEvent) (r0 : ClaudeExecutionResult)
    (h : s.settled = some r0) :
    (claudeStep w f now cwd sid tc s e).settled = some r0 := by
  cases e with
  | stdoutData c => simpa [claudeStep] using h
  | stderrData c => simpa [claudeStep] using h
  | timeoutFire =>
    simp only [claudeStep]
    split <;> simpa using h
  | closeEv code =>
    simp only [claudeStep]
    split
    · exact settleClaude_settled_of_some _ _ _ (by simpa using h)
    · exact settleClaude_settled_of_some _ _ _ (by simpa using h)
  | errorEv msg =>
    simp only [claudeStep]
    exact settleClaude_settled_of_some _ _ _ (by simpa using h)

/-- A settled promise stays settled with the same value through any further
trace. -/
theorem claudeFoldl_settled_of_some (w : ClaudeWrapper) (f : FaultEnv) (now cwd sid : String)
    (tc : Nat) (l : List ProcEvent) :
    ∀ (s : ClaudeRun) (r0 : ClaudeExecutionResult), s.settled = some r0 →
      (l.foldl (claudeStep w f now cwd sid tc) s).settled = some r0 := by
  induction l with
  | nil => intro s r0 h; simpa using h
  | cons e l ih =>
    intro s r0 h
    simp only [List.foldl_cons]
    exact ih _ _ (claudeStep_settled_of_some w f now cwd sid tc s e r0 h)

/-- A close or error event settles the promise (if it was not settled yet). -/
theorem claudeStep_isSome_of_settling (w : ClaudeWrapper) (f : FaultEnv) (now cwd sid : String)
    (tc : Nat) (s : ClaudeRun) (e : ProcEvent) (he : claudeSettling e = true) :
    ((claudeStep w f now cwd sid tc s e).settled).isSome = true := by
  cases e with
  | stdoutData c => simp [claudeSettling] at he
  | stderrData c => simp [claudeSettling] at he
  | timeoutFire => simp [claudeSettling] at he
  | closeEv code =>
    simp only [claudeStep]
    split <;> exact settleClaude_isSome _ _
  | errorEv msg =>
    simp only [claudeStep]
    exact settleClaude_isSome _ _

/-- A trace containing a close or error event leaves the promise settled. -/
theorem claudeFoldl_isSome_of_mem (w : ClaudeWrapper) (f : FaultEnv) (now cwd sid : String)
    (tc : Nat) (l : List ProcEvent) :
    ∀ s : ClaudeRun, (∃ e ∈ l, claudeSettling e = true) →
      ((l.foldl (claudeStep w f now cwd sid tc) s).settled).isSome = true := by
  induction l with
  | nil => intro s h; simp at h
  | cons e l ih =>
    intro s h
    simp only [List.foldl_cons]
    by_cases he : claudeSettling e = true
    · have h1 := claudeStep_isSome_of_settling w f now cwd sid tc s e he
      rcases Option.isSome_iff_exists.mp h1 with ⟨r0, hr0⟩
      rw [claudeFoldl_settled_of_some w f now cwd sid tc l _ r0 hr0]
      rfl
    · rcases h with ⟨e1, he1, hs1⟩
      rcases List.mem_cons.mp he1 with rfl | hmem
      · exact absurd hs1 he
      · exact ih _ ⟨e1, hmem, hs1⟩

/-- Every handler preserves the counting invariant. -/
theorem claudeStep_countOk (w : ClaudeWrapper) (f : FaultEnv) (now cwd sid : String)
    (tc : Nat) (s : ClaudeRun) (e : ProcEvent) (h : claudeCountOk s) :
    claudeCountOk (claudeStep w f now cwd sid tc s e) := by
  have hsettle : ∀ s1 : ClaudeRun, ∀ r : ClaudeExecutionResult, claudeCountOk s1 →
      claudeCountOk (settleClaude s1 r) := by
    intro s1 r h1
    unfold settleClaude
    cases hs : s1.settled with
    | none =>
      unfold claudeCountOk at h1 ⊢
      simp [hs] at h1
      simp [hs, h1]
    | some r0 =>
      simpa [hs] using h1
  cases e with
  | stdoutData c => simpa [claudeStep, claudeCountOk] using h
  | stderrData c => simpa [claudeStep, claudeCountOk] using h
  | timeoutFire =>
    simp only [claudeStep]
    split <;> simpa [claudeCountOk] using h
  | closeEv code =>
    simp only [claudeStep]
    split
    · exact hsettle _ _ (by simpa [claudeCountOk] using h)
    · exact hsettle _ _ (by simpa [claudeCountOk] using h)
  | errorEv msg =>
    simp only [claudeStep]
    exact hsettle _ _ (by simpa [claudeCountOk] using h)

/-- The counting invariant holds after any trace. -/
theorem claudeFoldl_countOk (w : ClaudeWrapper) (f : FaultEnv) (now cwd sid : String)
    (tc : Nat) (l : List ProcEvent) :
    ∀ s : ClaudeRun, claudeCountOk s →
      claudeCountOk (l.foldl (claudeStep w f now cwd sid tc) s) := by
  induction l with
  | nil => intro s h; simpa using h
  | cons e l ih =>
    intro s h
    simp only [List.foldl_cons]
    exact ih _ (claudeStep_countOk w f now cwd sid tc s e h)

/-- Settling an already settled promise is a no-op on the whole state. -/
theorem settleClaude_of_some (s : ClaudeRun) (r0 r : ClaudeExecutionResult)
    (h : s.settled = some r0) : settleClaude s r = s := by
  simp [settleClaude, h]

/-- Unfolding equation: stdout chunk handler. -/
theorem claudeStep_stdoutData (w : ClaudeWrapper) (f : FaultEnv) (now cwd sid : String)
    (tc : Nat) (s : ClaudeRun) (c : String) :
    claudeStep w f now cwd sid tc s (.stdoutData c) = { s with stdout := s.stdout ++ c } := rfl

/-- Unfolding equation: stderr chunk handler. -/
theorem claudeStep_stderrData (w : ClaudeWrapper) (f : FaultEnv) (now cwd sid : String)
    (tc : Nat) (s : ClaudeRun) (c : String) :
    claudeStep w f now cwd sid tc s (.stderrData c) = { s with stderr := s.stderr ++ c } := rfl

/-- Unfolding equation: timeout handler (kills only, no resolution). -/
theorem claudeStep_timeoutFire (w : ClaudeWrapper) (f : FaultEnv) (now cwd sid : String)
    (tc : Nat) (s : ClaudeRun) :
    claudeStep w f now cwd sid tc s .timeoutFire =
      if s.timerArmed then { s with timerArmed := false } else s := rfl

/-- Unfolding equation: close handler. -/
theorem claudeStep_closeEv (w : ClaudeWrapper) (f : FaultEnv) (now cwd sid : String)
    (tc : Nat) (s : ClaudeRun) (code : Option Int) :
    claudeStep w f now cwd sid tc s (.closeEv code) =
      settleClaude
        (if (claudeCloseOutcome s.stdout s.stderr code sid).success then
          { s with timerArmed := false, fs := w.saveSession f now s.fs cwd sid tc }
        else { s with timerArmed := false })
        (claudeCloseOutcome s.stdout s.stderr code sid) := rfl

/-- Unfolding equation: error handler. -/
theorem claudeStep_errorEv (w : ClaudeWrapper) (f : FaultEnv) (now cwd sid : String)
    (tc : Nat) (s : ClaudeRun) (msg : String) :
    claudeStep w f now cwd sid tc s (.errorEv msg) =
      settleClaude { s with timerArmed := false } (claudeErrorOutcome sid msg) := rfl

/-- The close outcome always carries the resolved session identifier. -/
theorem claudeCloseOutcome_sessionId (stdout stderr : String) (code : Option Int)
    (sid : String) : (claudeCloseOutcome stdout stderr code sid).sessionId = some sid := by
  rw [claudeCloseOutcome]
  split <;> rfl

/-- Every handler preserves the record invariant. -/
theorem claudeStep_good (w : ClaudeWrapper) (f : FaultEnv) (now cwd sid : String)
    (tc : Nat) (s : ClaudeRun) (e : ProcEvent) (h : claudeGood w f now cwd sid tc s) :
    claudeGood w f now cwd sid tc (claudeStep w f now cwd sid tc s e) := by
  cases e with
  | stdoutData c =>
    rw [claudeStep_stdoutData]
    intro r hr
    exact h r hr
  | stderrData c =>
    rw [claudeStep_stderrData]
    intro r hr
    exact h r hr
  | timeoutFire =>
    rw [claudeStep_timeoutFire]
    by_cases harm : s.timerArmed = true
    · rw [if_pos harm]
      intro r hr
      exact h r hr
    · rw [if_neg harm]
      exact h
  | closeEv code =>
    rw [claudeStep_closeEv]
    by_cases hsucc : (claudeCloseOutcome s.stdout s.stderr code sid).success = true
    · rw [if_pos hsucc]
      cases hset : s.settled with
      | none =>
        rw [settleClaude_of_none _ _ rfl]
        intro r hr
        have hr2 : claudeCloseOutcome s.stdout s.stderr code sid = r :=
          Option.some.inj hr
        subst hr2
        refine ⟨claudeCloseOutcome_sessionId _ _ _ _, fun _ hw => ?_⟩
        show FS.lookupFile (w.saveSession f now s.fs cwd sid tc) (w.sessionFileName cwd) = _
        rw [ClaudeWrapper.saveSession, if_neg (by simp [hw])]
        exact FS.lookupFile_setFile_self _ _ _
      | some r0 =>
        rw [settleClaude_of_some _ r0 _ rfl]
        intro r hr
        have hr2 : r0 = r := Option.some.inj hr
        subst hr2
        refine ⟨(h r0 hset).1, fun _ hw => ?_⟩
        show FS.lookupFile (w.saveSession f now s.fs cwd sid tc) (w.sessionFileName cwd) = _
        rw [ClaudeWrapper.saveSession, if_neg (by simp [hw])]
        exact FS.lookupFile_setFile_self _ _ _
    · rw [if_neg (by simpa using hsucc)]
      cases hset : s.settled with
      | none =>
        rw [settleClaude_of_none _ _ rfl]
        intro r hr
        have hr2 : claudeCloseOutcome s.stdout s.stderr code sid = r :=
          Option.some.inj hr
        subst hr2
        exact ⟨claudeCloseOutcome_sessionId _ _ _ _, fun hs _ => absurd hs hsucc⟩
      | some r0 =>
        rw [settleClaude_of_some _ r0 _ rfl]
        intro r hr
        have hr2 : r0 = r := Option.some.inj hr
        subst hr2
        exact ⟨(h r0 hset).1, fun hs hw => (h r0 hset).2 hs hw⟩
  | errorEv msg =>
    rw [claudeStep_errorEv]
    cases hset : s.settled with
    | none =>
      rw [settleClaude_of_none _ _ rfl]
      intro r hr
      have hr2 : claudeErrorOutcome sid msg = r := Option.some.inj hr
      subst hr2
      exact ⟨rfl, fun hs _ => by simp [claudeErrorOutcome] at hs⟩
    | some r0 =>
      rw [settleClaude_of_some _ r0 _ rfl]
      intro r hr
      have hr2 : r0 = r := Option.some.inj hr
      subst hr2
      exact ⟨(h r0 hset).1, fun hs hw => (h r0 hset).2 hs hw⟩

/-- The record invariant holds after any trace. -/
theorem claudeFoldl_good (w : ClaudeWrapper) (f : FaultEnv) (now cwd sid : String)
    (tc : Nat) (l : List ProcEvent) :
    ∀ s : ClaudeRun, claudeGood w f now cwd sid tc s →
      claudeGood w f now cwd sid tc (l.foldl (claudeStep w f now cwd sid tc) s) := by
  induction l with
  | nil => intro s h; simpa using h
  | cons e l ih =>
    intro s h
    simp only [List.foldl_cons]
    exact ih _ (claudeStep_good w f now cwd sid tc s e h)

/-- The observable core of a step is a pure function of the previous core:
the fault environment, clock and store never feed back into it. -/
theorem claudeCore_step (w : ClaudeWrapper) (f : FaultEnv) (now cwd sid : String)
    (tc : Nat) (s : ClaudeRun) (e : ProcEvent) :
    claudeCore (claudeStep w f now cwd sid tc s e) = claudeCoreStep sid (claudeCore s) e := by
  cases e with
  | stdoutData c => rfl
  | stderrData c => rfl
  | timeoutFire =>
    rw [claudeStep_timeoutFire]
    by_cases harm : s.timerArmed = true
    · rw [if_pos harm]
      simp [claudeCore, claudeCoreStep, harm]
    · rw [if_neg harm]
      simp [claudeCore, claudeCoreStep, harm]
  | closeEv code =>
    rw [claudeStep_closeEv]
    cases hset : s.settled with
    | none =>
      by_cases hsucc : (claudeCloseOutcome s.stdout s.stderr code sid).success = true
      · rw [if_pos hsucc, settleClaude_of_none _ _ rfl]
        simp [claudeCore, claudeCoreStep, hset]
      · rw [if_neg (by simpa using hsucc), settleClaude_of_none _ _ rfl]
        simp [claudeCore, claudeCoreStep, hset]
    | some r0 =>
      by_cases hsucc : (claudeCloseOutcome s.stdout s.stderr code sid).success = true
      · rw [if_pos hsucc, settleClaude_of_some _ r0 _ rfl]
        simp [claudeCore, claudeCoreStep, hset]
      · rw [if_neg (by simpa using hsucc), settleClaude_of_some _ r0 _ rfl]
        simp [claudeCore, claudeCoreStep, hset]
  | errorEv msg =>
    rw [claudeStep_errorEv]
    cases hset : s.settled with
    | none =>
      rw [settleClaude_of_none _ _ rfl]
      simp [claudeCore, claudeCoreStep, hset]
    | some r0 =>
      rw [settleClaude_of_some _ r0 _ rfl]
      simp [claudeCore, claudeCoreStep, hset]

/-- Whole traces keep the observable core a pure function of the initial core. -/
theorem claudeFoldl_core (w : ClaudeWrapper) (f : FaultEnv) (now cwd sid : String)
    (tc : Nat) (l : List ProcEvent) :
    ∀ s : ClaudeRun, claudeCore (l.foldl (claudeStep w f now cwd sid tc) s) =
      l.foldl (claudeCoreStep sid) (claudeCore s) := by
  induction l with
  | nil => intro s; rfl
  | cons e l ih =>
    intro s
    simp only [List.foldl_cons]
    rw [ih, claudeCore_step]

/-! Helper lemmas about the Gemini run state machine. -/

/-- The finish guard: a second call never changes anything. -/
theorem geminiFinish_of_true (g : GeminiWrapper) (f : FaultEnv) (now cwd : String)
    (tc : Nat) (s : GeminiRun) (success : Bool) (output : String) (code : Option Int)
    (h : s.resolvedFlag = true) :
    geminiFinish g f now cwd tc s success output code = s := by
  simp [geminiFinish, h]

/-- The first finish resolves: flag set, session saved on success, promise
settled, one effective resolution counted. -/
theorem geminiFinish_of_false (g : GeminiWrapper) (f : FaultEnv) (now cwd : String)
    (tc : Nat) (s : GeminiRun) (success : Bool) (output : String) (code : Option Int)
    (h : s.resolvedFlag = false) :
    geminiFinish g f now cwd tc s success output code =
      { s with resolvedFlag := true,
               fs := if success then g.saveSession f now s.fs cwd tc else s.fs,
               settled := some { success := success, output := output, exitCode := code },
               resolveCount := s.resolveCount + 1 } := by
  simp [geminiFinish, h]

/-- Unfolding equation: Gemini stdout chunk handler. -/
theorem geminiStep_stdoutData (g : GeminiWrapper) (f : FaultEnv) (now cwd : String)
    (tc timeout : Nat) (s : GeminiRun) (c : String) :
    geminiStep g f now cwd tc timeout s (.stdoutData c) =
      { s with stdout := s.stdout ++ c } := rfl

/-- Unfolding equation: Gemini stderr chunk handler. -/
theorem geminiStep_stderrData (g : GeminiWrapper) (f : FaultEnv) (now cwd : String)
    (tc timeout : Nat) (s : GeminiRun) (c : String) :
    geminiStep g f now cwd tc timeout s (.stderrData c) =
      { s with stderr := s.stderr ++ c } := rfl

/-- Unfolding equation: Gemini timeout handler (kills and finishes with the
partial output). -/
theorem geminiStep_timeoutFire (g : GeminiWrapper) (f : FaultEnv) (now cwd : String)
    (tc timeout : Nat) (s : GeminiRun) :
    geminiStep g f now cwd tc timeout s .timeoutFire =
      if s.timerArmed then
        geminiFinish g f now cwd tc { s with timerArmed := false } false
          (geminiTimeoutMsg timeout s.stdout s.stderr) none
      else s := rfl

/-- Unfolding equation: Gemini close handler. -/
theorem geminiStep_closeEv (g : GeminiWrapper) (f : FaultEnv) (now cwd : String)
    (tc timeout : Nat) (s : GeminiRun) (code : Option Int) :
    geminiStep g f now cwd tc timeout s (.closeEv code) =
      geminiFinish g f now cwd tc { s with timerArmed := false }
        (geminiCloseOutcome s.stdout s.stderr code).success
        (geminiCloseOutcome s.stdout s.stderr code).output
        (geminiCloseOutcome s.stdout s.stderr code).exitCode := rfl

/-- Unfolding equation: Gemini error handler. -/
theorem geminiStep_errorEv (g : GeminiWrapper) (f : FaultEnv) (now cwd : String)
    (tc timeout : Nat) (s : GeminiRun) (msg : String) :
    geminiStep g f now cwd tc timeout s (.errorEv msg) =
      geminiFinish g f now cwd tc { s with timerArmed := false } false
        ("[SPAWN ERROR] " ++ msg) none := rfl

/-- Every handler preserves the structural invariant. -/
theorem geminiStep_inv (g : GeminiWrapper) (f : FaultEnv) (now cwd : String)
    (tc timeout : Nat) (s : GeminiRun) (e : ProcEvent) (h : geminiInv s) :
    geminiInv (geminiStep g f now cwd tc timeout s e) := by
  obtain ⟨h1, h2⟩ := h
  have hfin : ∀ (s1 : GeminiRun) (success : Bool) (output : String) (code : Option Int),
      s1.resolvedFlag = s1.settled.isSome →
      geminiInv (geminiFinish g f now cwd tc s1 success output code) := by
    intro s1 success output code hh
    cases hflag : s1.resolvedFlag with
    | true =>
      rw [geminiFinish_of_true _ _ _ _ _ _ _ _ _ hflag]
      exact ⟨hh, fun _ => hflag⟩
    | false =>
      rw [geminiFinish_of_false _ _ _ _ _ _ _ _ _ hflag]
      exact ⟨rfl, fun _ => rfl⟩
  cases e with
  | stdoutData c =>
    rw [geminiStep_stdoutData]
    exact ⟨h1, h2⟩
  | stderrData c =>
    rw [geminiStep_stderrData]
    exact ⟨h1, h2⟩
  | timeoutFire =>
    rw [geminiStep_timeoutFire]
    by_cases harm : s.timerArmed = true
    · rw [if_pos harm]
      exact hfin _ _ _ _ h1
    · rw [if_neg harm]
      exact ⟨h1, h2⟩
  | closeEv code =>
    rw [geminiStep_closeEv]
    exact hfin _ _ _ _ h1
  | errorEv msg =>
    rw [geminiStep_errorEv]
    exact hfin _ _ _ _ h1

/-- Specialization of the finish guard to the timer-disarming handler states. -/
theorem geminiFinish_disarm_of_true (g : GeminiWrapper) (f : FaultEnv) (now cwd : String)
    (tc : Nat) (s : GeminiRun) (success : Bool) (output : String) (code : Option Int)
    (h : s.resolvedFlag = true) :
    geminiFinish g f now cwd tc { s with timerArmed := false } success output code =
      { s with timerArmed := false } :=
  geminiFinish_of_true g f now cwd tc _ success output code (show _ = true from h)

/-- No handler changes the value of an already settled Gemini promise, and the
store is frozen as well once resolved (the finish guard returns early). -/
theorem geminiStep_settled_of_some (g : GeminiWrapper) (f : FaultEnv) (now cwd : String)
    (tc timeout : Nat) (s : GeminiRun) (e : ProcEvent) (r0 : GeminiExecutionResult)
    (hinv : geminiInv s) (h : s.settled = some r0) :
    (geminiStep g f now cwd tc timeout s e).settled = some r0 ∧
      (geminiStep g f now cwd tc timeout s e).fs = s.fs := by
  have hflag : s.resolvedFlag = true := by rw [hinv.1, h]; rfl
  cases e with
  | stdoutData c => rw [geminiStep_stdoutData]; exact ⟨h, rfl⟩
  | stderrData c => rw [geminiStep_stderrData]; exact ⟨h, rfl⟩
  | timeoutFire =>
    rw [geminiStep_timeoutFire]
    by_cases harm : s.timerArmed = true
    · rw [if_pos harm, geminiFinish_disarm_of_true _ _ _ _ _ _ _ _ _ hflag]
      exact ⟨h, rfl⟩
    · rw [if_neg harm]
      exact ⟨h, rfl⟩
  | closeEv code =>
    rw [geminiStep_closeEv, geminiFinish_disarm_of_true _ _ _ _ _ _ _ _ _ hflag]
    exact ⟨h, rfl⟩
  | errorEv msg =>
    rw [geminiStep_errorEv, geminiFinish_disarm_of_true _ _ _ _ _ _ _ _ _ hflag]
    exact ⟨h, rfl⟩

/-- A settled Gemini promise stays settled with the same value through any
further trace, and the store is frozen. -/
theorem geminiFoldl_settled_of_some (g : GeminiWrapper) (f : FaultEnv) (now cwd : String)
    (tc timeout : Nat) (l : List ProcEvent) :
    ∀ (s : GeminiRun) (r0 : GeminiExecutionResult), geminiInv s → s.settled = some r0 →
      (l.foldl (geminiStep g f now cwd tc timeout) s).settled = some r0 ∧
        (l.foldl (geminiStep g f now cwd tc timeout) s).fs = s.fs := by
  induction l with
  | nil => intro s r0 _ h; exact ⟨h, rfl⟩
  | cons e l ih =>
    intro s r0 hinv h
    simp only [List.foldl_cons]
    have hstep := geminiStep_settled_of_some g f now cwd tc timeout s e r0 hinv h
    have := ih _ r0 (geminiStep_inv g f now cwd tc timeout s e hinv) hstep.1
    exact ⟨this.1, by rw [this.2, hstep.2]⟩

/-- A close, error, or (still armed) timeout event leaves the Gemini promise
settled. -/
theorem geminiStep_isSome_of_settling (g : GeminiWrapper) (f : FaultEnv) (now cwd : String)
    (tc timeout : Nat) (s : GeminiRun) (e : ProcEvent) (hinv : geminiInv s)
    (he : geminiSettling e = true) :
    ((geminiStep g f now cwd tc timeout s e).settled).isSome = true := by
  have hfin : ∀ (s1 : GeminiRun) (success : Bool) (output : String) (code : Option Int),
      s1.resolvedFlag = s1.settled.isSome →
      ((geminiFinish g f now cwd tc s1 success output code).settled).isSome = true := by
    intro s1 success output code hh
    cases hflag : s1.resolvedFlag with
    | true =>
      rw [geminiFinish_of_true _ _ _ _ _ _ _ _ _ hflag]
      rw [← hh, hflag]
    | false =>
      rw [geminiFinish_of_false _ _ _ _ _ _ _ _ _ hflag]
      rfl
  cases e with
  | stdoutData c => simp [geminiSettling] at he
  | stderrData c => simp [geminiSettling] at he
  | timeoutFire =>
    rw [geminiStep_timeoutFire]
    by_cases harm : s.timerArmed = true
    · rw [if_pos harm]
      exact hfin _ _ _ _ hinv.1
    · rw [if_neg harm]
      rw [← hinv.1]
      exact hinv.2 (by simpa using harm)
  | closeEv code =>
    rw [geminiStep_closeEv]
    exact hfin _ _ _ _ hinv.1
  | errorEv msg =>
    rw [geminiStep_errorEv]
    exact hfin _ _ _ _ hinv.1

/-- A trace containing a close, error, or timeout event leaves the Gemini
promise settled. -/
theorem geminiFoldl_isSome_of_mem (g : GeminiWrapper) (f : FaultEnv) (now cwd : String)
    (tc timeout : Nat) (l : List ProcEvent) :
    ∀ s : GeminiRun, geminiInv s → (∃ e ∈ l, geminiSettling e = true) →
      ((l.foldl (geminiStep g f now cwd tc timeout) s).settled).isSome = true := by
  induction l with
  | nil => intro s _ h; simp at h
  | cons e l ih =>
    intro s hinv h
    simp only [List.foldl_cons]
    by_cases he : geminiSettling e = true
    · have h1 := geminiStep_isSome_of_settling g f now cwd tc timeout s e hinv he
      rcases Option.isSome_iff_exists.mp h1 with ⟨r0, hr0⟩
      have := geminiFoldl_settled_of_some g f now cwd tc timeout l _ r0
        (geminiStep_inv g f now cwd tc timeout s e hinv) hr0
      rw [this.1]
      rfl
    · rcases h with ⟨e1, he1, hs1⟩
      rcases List.mem_cons.mp he1 with rfl | hmem
      · exact absurd hs1 he
      · exact ih _ (geminiStep_inv g f now cwd tc timeout s e hinv) ⟨e1, hmem, hs1⟩

/-- Every Gemini handler preserves the counting invariant. -/
theorem geminiStep_countOk (g : GeminiWrapper) (f : FaultEnv) (now cwd : String)
    (tc timeout : Nat) (s : GeminiRun) (e : ProcEvent) (hinv : geminiInv s)
    (h : geminiCountOk s) : geminiCountOk (geminiStep g f now cwd tc timeout s e) := by
  have hfin : ∀ (s1 : GeminiRun) (success : Bool) (output : String) (code : Option Int),
      s1.resolvedFlag = s1.settled.isSome → geminiCountOk s1 →
      geminiCountOk (geminiFinish g f now cwd tc s1 success output code) := by
    intro s1 success output code hh h1
    cases hflag : s1.resolvedFlag with
    | true =>
      rw [geminiFinish_of_true _ _ _ _ _ _ _ _ _ hflag]
      exact h1
    | false =>
      rw [geminiFinish_of_false _ _ _ _ _ _ _ _ _ hflag]
      have hnone : s1.settled.isSome = false := by rw [← hh, hflag]
      unfold geminiCountOk at h1 ⊢
      simp only [hnone, if_false, Bool.false_eq_true] at h1
      simp [h1]
  cases e with
  | stdoutData c => rw [geminiStep_stdoutData]; exact h
  | stderrData c => rw [geminiStep_stderrData]; exact h
  | timeoutFire =>
    rw [geminiStep_timeoutFire]
    by_cases harm : s.timerArmed = true
    · rw [if_pos harm]
      exact hfin _ _ _ _ hinv.1 h
    · rw [if_neg harm]
      exact h
  | closeEv code =>
    rw [geminiStep_closeEv]
    exact hfin _ _ _ _ hinv.1 h
  | errorEv msg =>
    rw [geminiStep_errorEv]
    exact hfin _ _ _ _ hinv.1 h

/-- The counting invariant holds after any trace. -/
theorem geminiFoldl_countOk (g : GeminiWrapper) (f : FaultEnv) (now cwd : String)
    (tc timeout : Nat) (l : List ProcEvent) :
    ∀ s : GeminiRun, geminiInv s → geminiCountOk s →
      geminiCountOk (l.foldl (geminiStep g f now cwd tc timeout) s) := by
  induction l with
  | nil => intro s _ h; simpa using h
  | cons e l ih =>
    intro s hinv h
    simp only [List.foldl_cons]
    exact ih _ (geminiStep_inv g f now cwd tc timeout s e hinv)
      (geminiStep_countOk g f now cwd tc timeout s e hinv h)

/-- The Gemini observable core of a step is a pure function of the previous
core. -/
theorem geminiCore_step (g : GeminiWrapper) (f : FaultEnv) (now cwd : String)
    (tc timeout : Nat) (s : GeminiRun) (e : ProcEvent) :
    geminiCore (geminiStep g f now cwd tc timeout s e) =
      geminiCoreStep timeout (geminiCore s) e := by
  have hfin : ∀ (s1 : GeminiRun) (success : Bool) (output : String) (code : Option Int),
      geminiCore (geminiFinish g f now cwd tc s1 success output code) =
        if s1.resolvedFlag then geminiCore s1
        else (s1.stdout, s1.stderr, s1.timerArmed, true,
          some { success := success, output := output, exitCode := code },
          s1.resolveCount + 1) := by
    intro s1 success output code
    cases hflag : s1.resolvedFlag with
    | true => rw [geminiFinish_of_true _ _ _ _ _ _ _ _ _ hflag, if_pos rfl]
    | false =>
      rw [geminiFinish_of_false _ _ _ _ _ _ _ _ _ hflag,
        if_neg (show ¬(false : Bool) = true by simp)]
      rfl
  cases e with
  | stdoutData c => rfl
  | stderrData c => rfl
  | timeoutFire =>
    rw [geminiStep_timeoutFire]
    by_cases harm : s.timerArmed = true
    · rw [if_pos harm, hfin]
      cases hflag : s.resolvedFlag with
      | true => simp [geminiCore, geminiCoreStep, hflag, harm]
      | false => simp [geminiCore, geminiCoreStep, hflag, harm]
    · rw [if_neg harm]
      have harm2 : s.timerArmed = false := by simpa using harm
      simp [geminiCore, geminiCoreStep, harm2]
  | closeEv code =>
    rw [geminiStep_closeEv, hfin]
    cases hflag : s.resolvedFlag with
    | true => simp [geminiCore, geminiCoreStep, hflag]
    | false => simp [geminiCore, geminiCoreStep, hflag]
  | errorEv msg =>
    rw [geminiStep_errorEv, hfin]
    cases hflag : s.resolvedFlag with
    | true => simp [geminiCore, geminiCoreStep, hflag]
    | false => simp [geminiCore, geminiCoreStep, hflag]

/-- Whole Gemini traces keep the observable core a pure function of the
initial core. -/
theorem geminiFoldl_core (g : GeminiWrapper) (f : FaultEnv) (now cwd : String)
    (tc timeout : Nat) (l : List ProcEvent) :
    ∀ s : GeminiRun, geminiCore (l.foldl (geminiStep g f now cwd tc timeout) s) =
      l.foldl (geminiCoreStep timeout) (geminiCore s) := by
  induction l with
  | nil => intro s; rfl
  | cons e l ih =>
    intro s
    simp only [List.foldl_cons]
    rw [ih, geminiCore_step]

/-- The structural invariant holds after any Gemini trace. -/
theorem geminiFoldl_inv (g : GeminiWrapper) (f : FaultEnv) (now cwd : String)
    (tc timeout : Nat) (l : List ProcEvent) :
    ∀ s : GeminiRun, geminiInv s → geminiInv (l.foldl (geminiStep g f now cwd tc timeout) s) := by
  induction l with
  | nil => intro s h; simpa using h
  | cons e l ih =>
    intro s h
    simp only [List.foldl_cons]
    exact ih _ (geminiStep_inv g f now cwd tc timeout s e h)

/-- The initial Gemini run state satisfies the structural invariant. -/
theorem geminiRunInit_inv (fs : FS) : geminiInv (geminiRunInit fs) := by
  constructor
  · rfl
  · intro hcontra
    simp [geminiRunInit] at hcontra

/-- Every Gemini run from the initial state satisfies the structural
invariant. -/
theorem geminiRun_inv (g : GeminiWrapper) (f : FaultEnv) (now cwd : String)
    (tc timeout : Nat) (fs : FS) (events : List ProcEvent) :
    geminiInv (geminiRun g f now cwd tc timeout fs events) :=
  geminiFoldl_inv g f now cwd tc timeout events (geminiRunInit fs) (geminiRunInit_inv fs)

/-- The first finish from a timer-disarming handler state. -/
theorem geminiFinish_disarm_of_false (g : GeminiWrapper) (f : FaultEnv) (now cwd : String)
    (tc : Nat) (s : GeminiRun) (success : Bool) (output : String) (code : Option Int)
    (h : s.resolvedFlag = false) :
    geminiFinish g f now cwd tc { s with timerArmed := false } success output code =
      { s with timerArmed := false, resolvedFlag := true,
               fs := if success then g.saveSession f now s.fs cwd tc else s.fs,
               settled := some { success := success, output := output, exitCode := code },
               resolveCount := s.resolveCount + 1 } :=
  geminiFinish_of_false g f now cwd tc _ success output code (show _ = false from h)

/-- Every Claude run from the initial state satisfies the record invariant. -/
theorem claudeRun_good (w : ClaudeWrapper) (f : FaultEnv) (now cwd sid : String)
    (tc : Nat) (fs : FS) (events : List ProcEvent) :
    claudeGood w f now cwd sid tc (claudeRun w f now cwd sid tc fs events) :=
  claudeFoldl_good w f now cwd sid tc events (claudeRunInit fs)
    (by intro r hr; simp [claudeRunInit] at hr)

/-- Unfolding of `ClaudeWrapper.execute` when `spawn` does not throw. -/
theorem ClaudeWrapper.execute_spawn_ok (w : ClaudeWrapper) (env : ClaudeExecEnv) (fs : FS)
    (log : List String) (instruction : String) (opts : ClaudeWrapperOptions)
    (h : env.spawnThrows = none) :
    w.execute env fs log instruction opts =
      { result := (claudeRun w env.fault env.now (opts.workingDirectory.getD env.defaultCwd)
          (w.resolveSession fs opts env.generatedId
            (opts.workingDirectory.getD env.defaultCwd)).sessionId
          (w.resolveSession fs opts env.generatedId
            (opts.workingDirectory.getD env.defaultCwd)).taskCount fs env.events).settled
        fs := (claudeRun w env.fault env.now (opts.workingDirectory.getD env.defaultCwd)
          (w.resolveSession fs opts env.generatedId
            (opts.workingDirectory.getD env.defaultCwd)).sessionId
          (w.resolveSession fs opts env.generatedId
            (opts.workingDirectory.getD env.defaultCwd)).taskCount fs env.events).fs
        log := appendLog env.fault log (claudeLogLine env.now
          (w.resolveSession fs opts env.generatedId
            (opts.workingDirectory.getD env.defaultCwd)) instruction) } := by
  rw [ClaudeWrapper.execute, h]

/-! Claim theorems. -/

/-- C7: for every Claude execute invocation whose process exits with code 0
and empty (whitespace-only) standard output, the close handler produces a
successful Outcome whose output is the literal no-output placeholder. -/
theorem empty_output_placeholder (stdout stderr sid : String)
    (h : jsTrim stdout = "") :
    claudeCloseOutcome stdout stderr (some 0) sid =
      { success := true, output := "[Claude lieferte keine Ausgabe]",
        exitCode := some 0, sessionId := some sid } := by
  simp [claudeCloseOutcome, h, jsOr]

/-- Witness for C7 at a concrete empty-output, exit-0 close. -/
theorem empty_output_placeholder_witness :
    jsTrim "" = "" ∧
    claudeCloseOutcome "" "some stderr noise" (some 0) "sid-1" =
      { success := true, output := "[Claude lieferte keine Ausgabe]",
        exitCode := some 0, sessionId := some "sid-1" } :=
  ⟨rfl, empty_output_placeholder "" "some stderr noise" "sid-1" rfl⟩

/-- C2 counterexample: a Gemini execute invocation whose process exits with
code 1 after writing non-empty standard output resolves with `success =
false` (the claim asserts success for either executor). -/
theorem gemini_nonzero_exit_counterexample :
    (sampleGemini.execute
      { fault := noFault, now := "T0",
        events := [.stdoutData "hello", .closeEv (some 1)], defaultCwd := "/proj" }
      [] [] "task" {}).result =
      some { success := false, output := "hello", exitCode := some 1 } := by
  decide

/-- C2 amended: the output-tolerant success policy (exit code 0 suffices;
non-zero exit with non-empty trimmed stdout also succeeds, with the trimmed
stdout as output) holds for the Claude executor; the Gemini executor instead
succeeds exactly when the exit code is 0 and the cleaned output is non-empty,
returning the cleaned output on success. -/
theorem success_policy_amended (stdout stderr : String) (code : Option Int) (sid : String) :
    ((code = some 0 → (claudeCloseOutcome stdout stderr code sid).success = true) ∧
     (jsTrim stdout ≠ "" →
       (claudeCloseOutcome stdout stderr code sid).success = true ∧
       (claudeCloseOutcome stdout stderr code sid).output = jsTrim stdout)) ∧
    ((geminiCloseOutcome stdout stderr code).success = true ↔
      (code = some 0 ∧ geminiClean (jsOr stdout stderr) ≠ "")) ∧
    ((geminiCloseOutcome stdout stderr code).success = true →
      (geminiCloseOutcome stdout stderr code).output = geminiClean (jsOr stdout stderr)) := by
  refine ⟨⟨?_, ?_⟩, ?_, ?_⟩
  · intro hc
    subst hc
    simp [claudeCloseOutcome]
  · intro ht
    simp [claudeCloseOutcome, ht, jsOr]
  · by_cases hc : code = some 0 <;>
      by_cases hcl : geminiClean (jsOr stdout stderr) = "" <;>
      simp [geminiCloseOutcome, hc, hcl]
  · by_cases hc : code = some 0 <;>
      by_cases hcl : geminiClean (jsOr stdout stderr) = "" <;>
      simp [geminiCloseOutcome, hc, hcl]

/-- Witness for C2 amended at exit code 1 with stdout `" ok "`. -/
theorem success_policy_amended_witness :
    ((some (1 : Int) = some 0 → (claudeCloseOutcome " ok " "" (some 1) "s").success = true) ∧
     (jsTrim " ok " ≠ "" →
       (claudeCloseOutcome " ok " "" (some 1) "s").success = true ∧
       (claudeCloseOutcome " ok " "" (some 1) "s").output = jsTrim " ok ")) ∧
    ((geminiCloseOutcome " ok " "" (some 1)).success = true ↔
      (some (1 : Int) = some 0 ∧ geminiClean (jsOr " ok " "") ≠ "")) ∧
    ((geminiCloseOutcome " ok " "" (some 1)).success = true →
      (geminiCloseOutcome " ok " "" (some 1)).output = geminiClean (jsOr " ok " "")) :=
  success_policy_amended " ok " "" (some 1) "s"

/-- C3 counterexample: with an explicit sessionId, a prior record for the
working directory and the default `continueSession`, the Claude wrapper
passes the explicit identifier via `--resume`, not via `--session-id`. -/
theorem explicit_session_resume_counterexample :
    (sampleWrapper.resolveSession priorStore { sessionId := some "expl-sid" }
        "gen-9" "/proj").taskCount = 1 ∧
    sampleWrapper.cliArgs "task"
      (sampleWrapper.resolveSession priorStore { sessionId := some "expl-sid" }
        "gen-9" "/proj") true =
      ["-p", "task", "--dangerously-skip-permissions", "--resume", "expl-sid"] := by
  decide

/-- C3 amended: an explicit sessionId is used as-is with task counter 1, and
exactly one of the two session argument forms is appended; the identifier
goes via `--session-id` when no prior record exists for the working directory
(or continuation is disabled), but via `--resume` when a prior record exists
and `continueSession` is true. -/
theorem explicit_session_amended (w : ClaudeWrapper) (fs : FS)
    (opts : ClaudeWrapperOptions) (generatedId cwd instruction sid : String)
    (h : opts.sessionId = some sid) :
    (w.resolveSession fs opts generatedId cwd).sessionId = sid ∧
    (w.resolveSession fs opts generatedId cwd).taskCount = 1 ∧
    (∀ (sess : ClaudeSession) (cont : Bool),
      w.cliArgs instruction sess cont =
        ["-p", instruction, "--dangerously-skip-permissions", "--resume", sess.sessionId] ∨
      w.cliArgs instruction sess cont =
        ["-p", instruction, "--dangerously-skip-permissions", "--session-id", sess.sessionId]) ∧
    ((w.loadSession fs cwd = none ∨ opts.continueSession.getD true = false) →
      w.cliArgs instruction (w.resolveSession fs opts generatedId cwd)
        (opts.continueSession.getD true) =
        ["-p", instruction, "--dangerously-skip-permissions", "--session-id", sid]) ∧
    (∀ es, w.loadSession fs cwd = some es → opts.continueSession.getD true = true →
      w.cliArgs instruction (w.resolveSession fs opts generatedId cwd)
        (opts.continueSession.getD true) =
        ["-p", instruction, "--dangerously-skip-permissions", "--resume", sid]) := by
  refine ⟨?_, ?_, ?_, ?_, ?_⟩
  · simp [ClaudeWrapper.resolveSession, h]
  · simp [ClaudeWrapper.resolveSession, h]
  · intro sess cont
    rw [ClaudeWrapper.cliArgs]
    by_cases hb : (sess.existing.isSome && cont) = true
    · rw [if_pos hb]
      left
      rfl
    · rw [if_neg hb]
      right
      rfl
  · intro hnone
    rw [ClaudeWrapper.cliArgs]
    rcases hnone with hnone | hcont
    · rw [if_neg (by simp [ClaudeWrapper.resolveSession, h, hnone])]
      simp [ClaudeWrapper.resolveSession, h]
    · rw [if_neg (by simp [hcont])]
      simp [ClaudeWrapper.resolveSession, h]
  · intro es hes hcont
    rw [ClaudeWrapper.cliArgs,
      if_pos (by simp [ClaudeWrapper.resolveSession, h, hes, hcont])]
    simp [ClaudeWrapper.resolveSession, h]

/-- Witness for C3 amended at the concrete prior-record store. -/
theorem explicit_session_amended_witness :
    (sampleWrapper.resolveSession priorStore { sessionId := some "expl-sid" }
        "gen-9" "/proj").sessionId = "expl-sid" ∧
    (sampleWrapper.resolveSession priorStore { sessionId := some "expl-sid" }
        "gen-9" "/proj").taskCount = 1 ∧
    (∀ (sess : ClaudeSession) (cont : Bool),
      sampleWrapper.cliArgs "task" sess cont =
        ["-p", "task", "--dangerously-skip-permissions", "--resume", sess.sessionId] ∨
      sampleWrapper.cliArgs "task" sess cont =
        ["-p", "task", "--dangerously-skip-permissions", "--session-id", sess.sessionId]) ∧
    ((sampleWrapper.loadSession priorStore "/proj" = none ∨
        ({ sessionId := some "expl-sid" } : ClaudeWrapperOptions).continueSession.getD true
          = false) →
      sampleWrapper.cliArgs "task"
        (sampleWrapper.resolveSession priorStore { sessionId := some "expl-sid" }
          "gen-9" "/proj")
        (({ sessionId := some "expl-sid" } : ClaudeWrapperOptions).continueSession.getD true) =
        ["-p", "task", "--dangerously-skip-permissions", "--session-id", "expl-sid"]) ∧
    (∀ es, sampleWrapper.loadSession priorStore "/proj" = some es →
      (({ sessionId := some "expl-sid" } : ClaudeWrapperOptions).continueSession.getD true)
        = true →
      sampleWrapper.cliArgs "task"
        (sampleWrapper.resolveSession priorStore { sessionId := some "expl-sid" }
          "gen-9" "/proj")
        (({ sessionId := some "expl-sid" } : ClaudeWrapperOptions).continueSession.getD true) =
        ["-p", "task", "--dangerously-skip-permissions", "--resume", "expl-sid"]) :=
  explicit_session_amended sampleWrapper priorStore { sessionId := some "expl-sid" }
    "gen-9" "/proj" "task" "expl-sid" rfl

/-- C5 counterexample: with one readable well-formed record and one corrupt
sibling in the directory, the listing is empty — the parse failure of one
record removes the other record from the returned sequence. -/
theorem list_sessions_corrupt_counterexample :
    FS.lookupFile mixedStore "session-aaa.json" = some (.claudeRec goodRecord) ∧
    jsStartsWith "session-aaa.json" "session-" = true ∧
    sampleWrapper.listSessions noFault mixedStore = [] := by
  decide

/-- C5 amended: when every `session-*` entry parses, every parsed record is
returned by `listSessions`; but as soon as any single entry is corrupt or
unreadable, the whole enumeration degrades to the empty sequence (still
without raising). -/
theorem list_sessions_amended (w : ClaudeWrapper) (env : FaultEnv) (fs : FS)
    (henv : env.readdirFails = false) :
    ((∀ f ∈ (FS.fileNames fs).filter (fun f => jsStartsWith f "session-"),
        (parseClaudeSession fs f).isSome) →
      ∀ f ∈ (FS.fileNames fs).filter (fun f => jsStartsWith f "session-"),
        ∀ d, parseClaudeSession fs f = some d → d ∈ w.listSessions env fs) ∧
    ((∃ f ∈ (FS.fileNames fs).filter (fun f => jsStartsWith f "session-"),
        parseClaudeSession fs f = none) →
      w.listSessions env fs = []) := by
  constructor
  · intro hall f hf d hd
    rcases traverseParse_some (parseClaudeSession fs) _ hall with ⟨out, hout⟩
    rcases traverseParse_mem _ _ out hout f hf with ⟨d2, hd2, hdm⟩
    have hdd : d2 = d := Option.some.inj (hd2.symm.trans hd)
    subst hdd
    simpa [ClaudeWrapper.listSessions, henv, hout] using hdm
  · rintro ⟨f, hf, hnone⟩
    have habort := traverseParse_none (parseClaudeSession fs) _ f hf hnone
    simp [ClaudeWrapper.listSessions, henv, habort]

/-- Witness for C5 amended at the mixed store with a corrupt entry. -/
theorem list_sessions_amended_witness :
    sampleWrapper.listSessions noFault mixedStore = [] :=
  (list_sessions_amended sampleWrapper noFault mixedStore rfl).2
    ⟨"session-bbb.json", by decide, by decide⟩

/-- C9: the clear_session handler of the server touches at most the record
file of the Claude executor (every Gemini record reads back unchanged), and
the list_sessions enumeration of the server is blind to Gemini records
(writing one never changes the listing). -/
theorem server_clear_session_frame (cw : ClaudeWrapper) (gw : GeminiWrapper)
    (env : FaultEnv) (fs : FS) (d d2 : String) (c : FileContent) :
    ((serverClearSession cw env fs d).2 = fs ∨
      (serverClearSession cw env fs d).2 = FS.deleteFile fs (cw.sessionFileName d)) ∧
    FS.lookupFile (serverClearSession cw env fs d).2 (gw.sessionFileName d2) =
      FS.lookupFile fs (gw.sessionFileName d2) ∧
    serverListSessions cw env (FS.setFile fs (gw.sessionFileName d2) c) =
      serverListSessions cw env fs := by
  have hne : gw.sessionFileName d2 ≠ cw.sessionFileName d := by
    rw [GeminiWrapper.sessionFileName, ClaudeWrapper.sessionFileName]
    exact (claude_name_ne_gemini_name _ _).symm
  have hpred : jsStartsWith (gw.sessionFileName d2) "session-" = false := by
    rw [GeminiWrapper.sessionFileName, String.append_assoc]
    exact jsStartsWith_gemini_name _
  have hclear : (serverClearSession cw env fs d).2 = fs ∨
      (serverClearSession cw env fs d).2 = FS.deleteFile fs (cw.sessionFileName d) := by
    rw [serverClearSession, ClaudeWrapper.clearSession]
    by_cases hex : FS.existsFile fs (cw.sessionFileName d) = true
    · rw [if_pos hex]
      by_cases hu : env.unlinkFails = true
      · rw [if_pos hu]
        left
        rfl
      · rw [if_neg hu]
        right
        rfl
    · rw [if_neg hex]
      left
      rfl
  refine ⟨hclear, ?_, ?_⟩
  · rcases hclear with hcl | hcl
    · rw [hcl]
    · rw [hcl]
      exact FS.lookupFile_deleteFile_ne fs _ _ hne
  · rw [serverListSessions, serverListSessions, ClaudeWrapper.listSessions,
      ClaudeWrapper.listSessions]
    by_cases hrd : env.readdirFails = true
    · rw [if_pos hrd, if_pos hrd]
    · rw [if_neg hrd, if_neg hrd]
      have hfiles :
          (FS.fileNames (FS.setFile fs (gw.sessionFileName d2) c)).filter
              (fun f => jsStartsWith f "session-") =
            (FS.fileNames fs).filter (fun f => jsStartsWith f "session-") := by
        rw [FS.fileNames_setFile, List.filter_cons_of_neg (by simp [hpred])]
        exact FS.filter_fileNames_erase fs _ _ hpred
      have hparse : ∀ f ∈ (FS.fileNames fs).filter (fun f => jsStartsWith f "session-"),
          parseClaudeSession (FS.setFile fs (gw.sessionFileName d2) c) f =
            parseClaudeSession fs f := by
        intro f hf
        have hft : jsStartsWith f "session-" = true := (List.mem_filter.mp hf).2
        have hfne : f ≠ gw.sessionFileName d2 := by
          intro heq
          rw [heq, hpred] at hft
          exact Bool.false_ne_true hft
        rw [parseClaudeSession, parseClaudeSession,
          FS.lookupFile_setFile_ne fs _ f c hfne]
      have hcongr := traverseParse_congr
        (parseClaudeSession (FS.setFile fs (gw.sessionFileName d2) c))
        (parseClaudeSession fs) _ hparse
      simp only [hfiles, hcongr]

/-- C4: for both executors, the success/failure resolution fires exactly once
on every trace that contains a close or error event (or, for the Gemini
executor, a timeout firing), regardless of how many kill signals were issued
and in which order timeout, close and error events arrive. -/
theorem resolution_fires_exactly_once :
    (∀ (w : ClaudeWrapper) (f : FaultEnv) (now cwd sid : String) (tc : Nat) (fs : FS)
        (events : List ProcEvent), (∃ e ∈ events, claudeSettling e = true) →
        (claudeRun w f now cwd sid tc fs events).resolveCount = 1) ∧
    (∀ (g : GeminiWrapper) (f : FaultEnv) (now cwd : String) (tc timeout : Nat) (fs : FS)
        (events : List ProcEvent), (∃ e ∈ events, geminiSettling e = true) →
        (geminiRun g f now cwd tc timeout fs events).resolveCount = 1) := by
  constructor
  · intro w f now cwd sid tc fs events hev
    have hcnt := claudeFoldl_countOk w f now cwd sid tc events (claudeRunInit fs)
      (by simp [claudeCountOk, claudeRunInit])
    have hsome := claudeFoldl_isSome_of_mem w f now cwd sid tc events (claudeRunInit fs) hev
    rw [claudeCountOk] at hcnt
    rw [claudeRun, hcnt, hsome]
    rfl
  · intro g f now cwd tc timeout fs events hev
    have hinv0 : geminiInv (geminiRunInit fs) := by
      constructor
      · rfl
      · intro hcontra
        simp [geminiRunInit] at hcontra
    have hcnt := geminiFoldl_countOk g f now cwd tc timeout events (geminiRunInit fs) hinv0
      (by simp [geminiCountOk, geminiRunInit])
    have hsome := geminiFoldl_isSome_of_mem g f now cwd tc timeout events
      (geminiRunInit fs) hinv0 hev
    rw [geminiCountOk] at hcnt
    rw [geminiRun, hcnt, hsome]
    rfl

/-- Witness for C4 on traces with repeated and reordered termination events. -/
theorem resolution_fires_exactly_once_witness :
    (claudeRun sampleWrapper noFault "T" "/p" "sid" 1 []
        [.timeoutFire, .closeEv (some 0), .errorEv "late", .closeEv none]).resolveCount = 1 ∧
    (geminiRun sampleGemini noFault "T" "/p" 1 120000 []
        [.timeoutFire, .closeEv none]).resolveCount = 1 :=
  ⟨resolution_fires_exactly_once.1 sampleWrapper noFault "T" "/p" "sid" 1 [] _
      ⟨.closeEv (some 0), by decide, rfl⟩,
    resolution_fires_exactly_once.2 sampleGemini noFault "T" "/p" 1 120000 [] _
      ⟨.timeoutFire, by decide, rfl⟩⟩

/-- C10: both `execute` methods always produce an Outcome rather than a
propagated exception: a spawn throw (Claude guard) or any terminating event
trace yields a settled result, and the returned Outcome is unchanged under
arbitrary session-store, audit-log, unlink, and readdir faults. -/
theorem execute_total_resolution :
    (∀ (w : ClaudeWrapper) (env : ClaudeExecEnv) (fs : FS) (log : List String)
        (instruction : String) (opts : ClaudeWrapperOptions),
        (env.spawnThrows.isSome = true ∨ ∃ e ∈ env.events, claudeSettling e = true) →
        ((w.execute env fs log instruction opts).result).isSome = true) ∧
    (∀ (w : ClaudeWrapper) (env : ClaudeExecEnv) (f2 : FaultEnv) (fs : FS)
        (log : List String) (instruction : String) (opts : ClaudeWrapperOptions),
        (w.execute { env with fault := f2 } fs log instruction opts).result =
          (w.execute env fs log instruction opts).result) ∧
    (∀ (g : GeminiWrapper) (env : GeminiExecEnv) (fs : FS) (log : List String)
        (instruction : String) (opts : GeminiWrapperOptions),
        (∃ e ∈ env.events, geminiSettling e = true) →
        ((g.execute env fs log instruction opts).result).isSome = true) ∧
    (∀ (g : GeminiWrapper) (env : GeminiExecEnv) (f2 : FaultEnv) (fs : FS)
        (log : List String) (instruction : String) (opts : GeminiWrapperOptions),
        (g.execute { env with fault := f2 } fs log instruction opts).result =
          (g.execute env fs log instruction opts).result) := by
  refine ⟨?_, ?_, ?_, ?_⟩
  · intro w env fs log instruction opts h
    cases hsp : env.spawnThrows with
    | some msg => simp [ClaudeWrapper.execute, hsp]
    | none =>
      rcases h with hsome | hev
      · rw [hsp] at hsome
        simp at hsome
      · rw [ClaudeWrapper.execute_spawn_ok w env fs log instruction opts hsp]
        exact claudeFoldl_isSome_of_mem w env.fault env.now _ _ _ env.events
          (claudeRunInit fs) hev
  · intro w env f2 fs log instruction opts
    cases hsp : env.spawnThrows with
    | some msg => simp [ClaudeWrapper.execute, hsp]
    | none =>
      simp only [ClaudeWrapper.execute, hsp]
      rw [claudeRun, claudeRun]
      have h1 := claudeFoldl_core w f2 env.now (opts.workingDirectory.getD env.defaultCwd)
        (w.resolveSession fs opts env.generatedId
          (opts.workingDirectory.getD env.defaultCwd)).sessionId
        (w.resolveSession fs opts env.generatedId
          (opts.workingDirectory.getD env.defaultCwd)).taskCount
        env.events (claudeRunInit fs)
      have h2 := claudeFoldl_core w env.fault env.now
        (opts.workingDirectory.getD env.defaultCwd)
        (w.resolveSession fs opts env.generatedId
          (opts.workingDirectory.getD env.defaultCwd)).sessionId
        (w.resolveSession fs opts env.generatedId
          (opts.workingDirectory.getD env.defaultCwd)).taskCount
        env.events (claudeRunInit fs)
      have hcore := h1.trans h2.symm
      exact congrArg (fun t => t.2.2.2.1) hcore
  · intro g env fs log instruction opts hev
    rw [GeminiWrapper.execute]
    exact geminiFoldl_isSome_of_mem g env.fault env.now _ _ _ env.events
      (geminiRunInit fs) (geminiRunInit_inv fs) hev
  · intro g env f2 fs log instruction opts
    rw [GeminiWrapper.execute, GeminiWrapper.execute]
    have h1 := geminiFoldl_core g f2 env.now (opts.workingDirectory.getD env.defaultCwd)
      (match g.loadSession fs (opts.workingDirectory.getD env.defaultCwd) with
        | some es => es.taskCount + 1 | none => 1)
      (opts.timeout.getD GeminiWrapper.defaultTimeout)
      env.events (geminiRunInit fs)
    have h2 := geminiFoldl_core g env.fault env.now
      (opts.workingDirectory.getD env.defaultCwd)
      (match g.loadSession fs (opts.workingDirectory.getD env.defaultCwd) with
        | some es => es.taskCount + 1 | none => 1)
      (opts.timeout.getD GeminiWrapper.defaultTimeout)
      env.events (geminiRunInit fs)
    have hcore := h1.trans h2.symm
    exact congrArg (fun t => t.2.2.2.2.1) hcore

/-- Witness for C10: a spawn throw, a timing-out Gemini trace, and fault-flag
changes on concrete calls. -/
theorem execute_total_resolution_witness :
    ((sampleWrapper.execute
        { fault := noFault, now := "T", generatedId := "gen", spawnThrows := some "ENOENT",
          events := [], defaultCwd := "/p" } [] [] "task" {}).result).isSome = true ∧
    ((sampleGemini.execute
        { fault := noFault, now := "T", events := [.timeoutFire], defaultCwd := "/p" }
        [] [] "task" {}).result).isSome = true ∧
    (sampleWrapper.execute
        { fault := ⟨true, true, true, true⟩, now := "T", generatedId := "gen",
          spawnThrows := none, events := [.closeEv (some 0)], defaultCwd := "/p" }
        [] [] "task" {}).result =
      (sampleWrapper.execute
        { fault := noFault, now := "T", generatedId := "gen", spawnThrows := none,
          events := [.closeEv (some 0)], defaultCwd := "/p" } [] [] "task" {}).result :=
  ⟨execute_total_resolution.1 sampleWrapper _ [] [] "task" {} (Or.inl rfl),
    execute_total_resolution.2.2.1 sampleGemini _ [] [] "task" {}
      ⟨.timeoutFire, by decide, rfl⟩,
    execute_total_resolution.2.1 sampleWrapper
      { fault := noFault, now := "T", generatedId := "gen", spawnThrows := none,
        events := [.closeEv (some 0)], defaultCwd := "/p" }
      ⟨true, true, true, true⟩ [] [] "task" {}⟩

/-- C1 counterexample: a Claude execute invocation that buffers output, times
out, and is then killed (close with a signal) resolves only at the close
event — the run is still unsettled right after the timeout fires — and
resolves with `success = true`, not `false` as the claim states for either
executor. -/
theorem claude_timeout_counterexample :
    (sampleWrapper.execute timeoutTraceEnv [] [] "task" {}).result =
      some { success := true, output := "partial", exitCode := none,
             sessionId := some "gen-1" } ∧
    (claudeRun sampleWrapper noFault "T0" "/proj" "gen-1" 1 []
        [.stdoutData "partial", .timeoutFire]).settled = none := by
  decide

/-- C1 amended: for the Gemini executor the claim holds as stated — at the
first firing of the timeout on an unresolved run the Outcome settles
immediately to `success = false`, `exitCode = null`, with the buffered stdout
embedded in the output, and no later event (including the eventual process
death) changes it.  The timeout handler of the Claude executor, in contrast, never
resolves: its settlement state is unchanged by the timeout firing, resolution
happening only at close or error. -/
theorem timeout_resolution_amended :
    (∀ (g : GeminiWrapper) (f : FaultEnv) (now cwd : String) (tc timeout : Nat) (fs : FS)
        (pre post : List ProcEvent),
        (geminiRun g f now cwd tc timeout fs pre).settled = none →
        (geminiRun g f now cwd tc timeout fs pre).timerArmed = true →
        (geminiRun g f now cwd tc timeout fs (pre ++ .timeoutFire :: post)).settled =
          some { success := false,
                 output := geminiTimeoutMsg timeout
                   (geminiRun g f now cwd tc timeout fs pre).stdout
                   (geminiRun g f now cwd tc timeout fs pre).stderr,
                 exitCode := none } ∧
        ((geminiRun g f now cwd tc timeout fs pre).stdout ≠ "" →
          ∃ p : String, geminiTimeoutMsg timeout
              (geminiRun g f now cwd tc timeout fs pre).stdout
              (geminiRun g f now cwd tc timeout fs pre).stderr =
            p ++ (geminiRun g f now cwd tc timeout fs pre).stdout)) ∧
    (∀ (w : ClaudeWrapper) (f : FaultEnv) (now cwd sid : String) (tc : Nat) (fs : FS)
        (pre : List ProcEvent),
        (claudeRun w f now cwd sid tc fs (pre ++ [.timeoutFire])).settled =
          (claudeRun w f now cwd sid tc fs pre).settled) := by
  constructor
  · intro g f now cwd tc timeout fs pre post h1 h2
    have hinv := geminiRun_inv g f now cwd tc timeout fs pre
    have hflag : (geminiRun g f now cwd tc timeout fs pre).resolvedFlag = false := by
      rw [hinv.1, h1]
      rfl
    have h2f : (List.foldl (geminiStep g f now cwd tc timeout) (geminiRunInit fs)
        pre).timerArmed = true := h2
    have hflagf : (List.foldl (geminiStep g f now cwd tc timeout) (geminiRunInit fs)
        pre).resolvedFlag = false := hflag
    constructor
    · rw [geminiRun, List.foldl_append, List.foldl_cons]
      rw [geminiStep_timeoutFire, if_pos h2f,
        geminiFinish_disarm_of_false g f now cwd tc _ false _ none hflagf]
      refine (geminiFoldl_settled_of_some g f now cwd tc timeout post _ _
        ⟨rfl, fun _ => rfl⟩ rfl).1
    · intro hne
      refine ⟨"[TIMEOUT] Gemini antwortete nicht innerhalb von " ++ secondsStr timeout ++
        "s\n\nPartielle Ausgabe:\n", ?_⟩
      rw [geminiTimeoutMsg, jsOr, if_neg hne]
  · intro w f now cwd sid tc fs pre
    rw [claudeRun, claudeRun, List.foldl_append, List.foldl_cons, List.foldl_nil,
      claudeStep_timeoutFire]
    by_cases harm : (pre.foldl (claudeStep w f now cwd sid tc) (claudeRunInit fs)).timerArmed
      = true
    · rw [if_pos harm]
    · rw [if_neg harm]

/-- Witness for C1 amended: a buffering run that times out and later closes. -/
theorem timeout_resolution_amended_witness :
    ((geminiRun sampleGemini noFault "T" "/p" 1 120000 []
        ([.stdoutData "abc"] ++ .timeoutFire :: [.closeEv none])).settled =
      some { success := false,
             output := geminiTimeoutMsg 120000
               (geminiRun sampleGemini noFault "T" "/p" 1 120000 [] [.stdoutData "abc"]).stdout
               (geminiRun sampleGemini noFault "T" "/p" 1 120000 []
                 [.stdoutData "abc"]).stderr,
             exitCode := none } ∧
      ((geminiRun sampleGemini noFault "T" "/p" 1 120000 [] [.stdoutData "abc"]).stdout ≠ "" →
        ∃ p : String, geminiTimeoutMsg 120000
            (geminiRun sampleGemini noFault "T" "/p" 1 120000 [] [.stdoutData "abc"]).stdout
            (geminiRun sampleGemini noFault "T" "/p" 1 120000 [] [.stdoutData "abc"]).stderr =
          p ++ (geminiRun sampleGemini noFault "T" "/p" 1 120000 []
            [.stdoutData "abc"]).stdout)) ∧
    (claudeRun sampleWrapper noFault "T" "/p" "sid" 1 []
        ([.stdoutData "abc"] ++ [.timeoutFire])).settled =
      (claudeRun sampleWrapper noFault "T" "/p" "sid" 1 [] [.stdoutData "abc"]).settled :=
  ⟨timeout_resolution_amended.1 sampleGemini noFault "T" "/p" 1 120000 []
      [.stdoutData "abc"] [.closeEv none] (by decide) (by decide),
    timeout_resolution_amended.2 sampleWrapper noFault "T" "/p" "sid" 1 []
      [.stdoutData "abc"]⟩

/-- Successful Claude executes persist exactly the resolved session record,
and echo the resolved identifier in the Outcome. -/
theorem claude_execute_success_record (w : ClaudeWrapper) (env : ClaudeExecEnv) (fs0 : FS)
    (log0 : List String) (instr : String) (opts : ClaudeWrapperOptions)
    (r : ClaudeExecutionResult)
    (hspawn : env.spawnThrows = none) (hwf : env.fault.writeFails = false)
    (hres : (w.execute env fs0 log0 instr opts).result = some r)
    (hs : r.success = true) :
    FS.lookupFile (w.execute env fs0 log0 instr opts).fs
      (w.sessionFileName (opts.workingDirectory.getD env.defaultCwd)) =
      some (.claudeRec
        { sessionId := (w.resolveSession fs0 opts env.generatedId
            (opts.workingDirectory.getD env.defaultCwd)).sessionId
          workingDirectory := opts.workingDirectory.getD env.defaultCwd
          lastUsed := env.now
          taskCount := (w.resolveSession fs0 opts env.generatedId
            (opts.workingDirectory.getD env.defaultCwd)).taskCount }) ∧
    r.sessionId = some (w.resolveSession fs0 opts env.generatedId
      (opts.workingDirectory.getD env.defaultCwd)).sessionId := by
  rw [ClaudeWrapper.execute_spawn_ok w env fs0 log0 instr opts hspawn] at hres ⊢
  have hgood := claudeRun_good w env.fault env.now
    (opts.workingDirectory.getD env.defaultCwd)
    (w.resolveSession fs0 opts env.generatedId
      (opts.workingDirectory.getD env.defaultCwd)).sessionId
    (w.resolveSession fs0 opts env.generatedId
      (opts.workingDirectory.getD env.defaultCwd)).taskCount
    fs0 env.events r hres
  exact ⟨hgood.2 hs hwf, hgood.1⟩

/-- C6: from a directory with no prior record, two consecutive successful
Claude executes with `continueSession` defaulting to true and no explicit
sessionId echo the same session identifier (the one generated by the first
call), persist a record with task counter 2, and construct the second CLI
invocation with `--resume` carrying that identifier. -/
theorem continue_session_two_calls (w : ClaudeWrapper) (env1 env2 : ClaudeExecEnv)
    (fs0 : FS) (log0 : List String) (instr1 instr2 : String)
    (opts : ClaudeWrapperOptions)
    (hsid : opts.sessionId = none)
    (hcont : opts.continueSession.getD true = true)
    (hspawn1 : env1.spawnThrows = none) (hspawn2 : env2.spawnThrows = none)
    (hw1 : env1.fault.writeFails = false) (hw2 : env2.fault.writeFails = false)
    (hcwd : opts.workingDirectory.getD env2.defaultCwd =
      opts.workingDirectory.getD env1.defaultCwd)
    (hload : w.loadSession fs0 (opts.workingDirectory.getD env1.defaultCwd) = none)
    (r1 r2 : ClaudeExecutionResult)
    (h1 : (w.execute env1 fs0 log0 instr1 opts).result = some r1)
    (hs1 : r1.success = true)
    (h2 : (w.execute env2 (w.execute env1 fs0 log0 instr1 opts).fs
        ((w.execute env1 fs0 log0 instr1 opts).log) instr2 opts).result = some r2)
    (hs2 : r2.success = true) :
    r2.sessionId = r1.sessionId ∧
    r1.sessionId = some env1.generatedId ∧
    (∃ rec : SessionData,
      w.loadSession (w.execute env2 (w.execute env1 fs0 log0 instr1 opts).fs
          ((w.execute env1 fs0 log0 instr1 opts).log) instr2 opts).fs
        (opts.workingDirectory.getD env1.defaultCwd) = some rec ∧
      rec.taskCount = 2) ∧
    w.cliArgs instr2
      (w.resolveSession (w.execute env1 fs0 log0 instr1 opts).fs opts env2.generatedId
        (opts.workingDirectory.getD env2.defaultCwd))
      (opts.continueSession.getD true) =
      ["-p", instr2, "--dangerously-skip-permissions", "--resume", env1.generatedId] := by
  have hsess1 : w.resolveSession fs0 opts env1.generatedId
      (opts.workingDirectory.getD env1.defaultCwd) =
      { sessionId := env1.generatedId, taskCount := 1, existing := none } := by
    simp [ClaudeWrapper.resolveSession, hsid, hload]
  have hfirst := claude_execute_success_record w env1 fs0 log0 instr1 opts r1
    hspawn1 hw1 h1 hs1
  rw [hsess1] at hfirst
  dsimp only at hfirst
  have hload1 : w.loadSession (w.execute env1 fs0 log0 instr1 opts).fs
      (opts.workingDirectory.getD env1.defaultCwd) =
      some { sessionId := env1.generatedId,
             workingDirectory := opts.workingDirectory.getD env1.defaultCwd,
             lastUsed := env1.now, taskCount := 1 } := by
    rw [ClaudeWrapper.loadSession, hfirst.1]
  have hsess2 : w.resolveSession (w.execute env1 fs0 log0 instr1 opts).fs opts
      env2.generatedId (opts.workingDirectory.getD env2.defaultCwd) =
      { sessionId := env1.generatedId, taskCount := 2,
        existing := some
          { sessionId := env1.generatedId,
            workingDirectory := opts.workingDirectory.getD env1.defaultCwd,
            lastUsed := env1.now, taskCount := 1 } } := by
    simp [ClaudeWrapper.resolveSession, hsid, hcwd, hload1, hcont]
  have hsecond := claude_execute_success_record w env2
    (w.execute env1 fs0 log0 instr1 opts).fs
    ((w.execute env1 fs0 log0 instr1 opts).log) instr2 opts r2 hspawn2 hw2 h2 hs2
  rw [hsess2] at hsecond
  dsimp only at hsecond
  refine ⟨?_, hfirst.2, ?_, ?_⟩
  · rw [hsecond.2, hfirst.2]
  · exact ⟨_, by rw [← hcwd, ClaudeWrapper.loadSession, hsecond.1], rfl⟩
  · rw [hsess2, ClaudeWrapper.cliArgs, if_pos (by simp [hcont])]
    rfl

/-- Witness for C6: two concrete back-to-back successful executes. -/
theorem continue_session_two_calls_witness :
    (let env1 : ClaudeExecEnv :=
      { fault := noFault, now := "T1", generatedId := "gen-1", spawnThrows := none,
        events := [.closeEv (some 0)], defaultCwd := "/proj" };
     let env2 : ClaudeExecEnv :=
      { fault := noFault, now := "T2", generatedId := "gen-2", spawnThrows := none,
        events := [.closeEv (some 0)], defaultCwd := "/proj" };
     let r1 : ClaudeExecutionResult :=
      { success := true, output := "[Claude lieferte keine Ausgabe]",
        exitCode := some 0, sessionId := some "gen-1" };
     let r2 : ClaudeExecutionResult :=
      { success := true, output := "[Claude lieferte keine Ausgabe]",
        exitCode := some 0, sessionId := some "gen-1" };
     r2.sessionId = r1.sessionId ∧
     r1.sessionId = some "gen-1" ∧
     (∃ rec : SessionData,
       sampleWrapper.loadSession (sampleWrapper.execute env2
           (sampleWrapper.execute env1 [] [] "t1" {}).fs
           ((sampleWrapper.execute env1 [] [] "t1" {}).log) "t2" {}).fs "/proj" =
         some rec ∧ rec.taskCount = 2) ∧
     sampleWrapper.cliArgs "t2"
       (sampleWrapper.resolveSession (sampleWrapper.execute env1 [] [] "t1" {}).fs {}
         "gen-2" "/proj") true =
       ["-p", "t2", "--dangerously-skip-permissions", "--resume", "gen-1"]) :=
  continue_session_two_calls sampleWrapper
    { fault := noFault, now := "T1", generatedId := "gen-1", spawnThrows := none,
      events := [.closeEv (some 0)], defaultCwd := "/proj" }
    { fault := noFault, now := "T2", generatedId := "gen-2", spawnThrows := none,
      events := [.closeEv (some 0)], defaultCwd := "/proj" }
    [] [] "t1" "t2" {} rfl rfl rfl rfl rfl rfl rfl (by decide)
    { success := true, output := "[Claude lieferte keine Ausgabe]",
      exitCode := some 0, sessionId := some "gen-1" }
    { success := true, output := "[Claude lieferte keine Ausgabe]",
      exitCode := some 0, sessionId := some "gen-1" }
    (by decide) rfl (by decide) rfl

/-- C8: `clearSession` returns true exactly when a record existed (and, with
a working unlink, was removed); an immediately repeated call returns false;
it never raises by construction (every branch returns a boolean); and after a
successful execute on a directory the first call returns true. -/
theorem clear_session_spec (w : ClaudeWrapper) (env : FaultEnv) (d : String) (fs : FS)
    (hu : env.unlinkFails = false) :
    ((w.clearSession env fs d).1 = FS.existsFile fs (w.sessionFileName d)) ∧
    ((w.clearSession env ((w.clearSession env fs d).2) d).1 = false) ∧
    (∀ (env1 : ClaudeExecEnv) (fs0 : FS) (log0 : List String) (instr : String)
        (opts : ClaudeWrapperOptions) (r : ClaudeExecutionResult),
        env1.spawnThrows = none → env1.fault.writeFails = false →
        opts.workingDirectory.getD env1.defaultCwd = d →
        (w.execute env1 fs0 log0 instr opts).result = some r → r.success = true →
        (w.clearSession env (w.execute env1 fs0 log0 instr opts).fs d).1 = true) := by
  refine ⟨?_, ?_, ?_⟩
  · rw [ClaudeWrapper.clearSession]
    by_cases hex : FS.existsFile fs (w.sessionFileName d) = true
    · rw [if_pos hex, if_neg (by simp [hu]), hex]
    · rw [if_neg hex]
      simp only [Bool.not_eq_true] at hex
      rw [hex]
  · by_cases hex : FS.existsFile fs (w.sessionFileName d) = true
    · have hfs2 : (w.clearSession env fs d).2 = FS.deleteFile fs (w.sessionFileName d) := by
        rw [ClaudeWrapper.clearSession, if_pos hex, if_neg (by simp [hu])]
      rw [hfs2, ClaudeWrapper.clearSession,
        if_neg (by simp [FS.existsFile, FS.lookupFile_deleteFile_self])]
    · have hfs2 : (w.clearSession env fs d).2 = fs := by
        rw [ClaudeWrapper.clearSession, if_neg hex]
      rw [hfs2, ClaudeWrapper.clearSession, if_neg hex]
  · intro env1 fs0 log0 instr opts r hspawn hwf hdir hres hs
    have hrec := (claude_execute_success_record w env1 fs0 log0 instr opts r
      hspawn hwf hres hs).1
    rw [hdir] at hrec
    rw [ClaudeWrapper.clearSession, if_pos (by simp [FS.existsFile, hrec]),
      if_neg (by simp [hu])]

/-- Witness for C8: one successful execute, then two clears. -/
theorem clear_session_spec_witness :
    ((sampleWrapper.clearSession noFault
        (sampleWrapper.execute
          { fault := noFault, now := "T1", generatedId := "gen-1", spawnThrows := none,
            events := [.closeEv (some 0)], defaultCwd := "/proj" } [] [] "t" {}).fs
        "/proj").1 = true) ∧
    ((sampleWrapper.clearSession noFault [] "/missing").1 =
      FS.existsFile [] (sampleWrapper.sessionFileName "/missing")) :=
  ⟨(clear_session_spec sampleWrapper noFault "/proj"
      (sampleWrapper.execute
        { fault := noFault, now := "T1", generatedId := "gen-1", spawnThrows := none,
          events := [.closeEv (some 0)], defaultCwd := "/proj" } [] [] "t" {}).fs
      rfl).2.2
      { fault := noFault, now := "T1", generatedId := "gen-1", spawnThrows := none,
        events := [.closeEv (some 0)], defaultCwd := "/proj" }
      [] [] "t" {}
      { success := true, output := "[Claude lieferte keine Ausgabe]",
        exitCode := some 0, sessionId := some "gen-1" }
      rfl rfl rfl (by decide) rfl,
    (clear_session_spec sampleWrapper noFault "/missing" [] rfl).1⟩

end Bridge
